import Mathlib

/-!
Verification development for the mcp-sage debate orchestrator.

Shallow embedding of:
  * `src/strategies/planStrategy.ts` (`PlanStrategy.parseJudge`)
  * `src/debateOrchestrator.ts` (`withRetry`, `extractConfidenceScore`,
    `checkConsensus`, the sage-plan `debate` loop)
  * `src/modelManager.ts` (`sendToModelWithFallback`)
  * the strategy-based orchestrator `runDebate` (debate/debateOrchestrator.ts,
    provided as an unnamed source file)

External effects (HTTP calls to providers, notifications, timers) are
abstracted as oracle functions supplied in an environment record: each call
site of the orchestrator reads its outcome from the oracle, which makes the
control flow deterministic while keeping every branch of the source intact.
Token counts and scores are rationals / naturals; JavaScript string regexes
are modelled by explicit scanners over character lists.
-/

/-! ## String scanning utilities (JS `String.includes`, regex literals) -/

/-- Case-sensitive prefix test on character lists. -/
def isPrefixOfB : List Char → List Char → Bool
  | [], _ => true
  | _ :: _, [] => false
  | p :: ps, t :: ts => (p == t) && isPrefixOfB ps ts

/-- JS `haystack.includes(needle)`: `needle` occurs as a contiguous substring. -/
def containsSub (needle : List Char) : List Char → Bool
  | [] => needle.isEmpty
  | c :: cs => isPrefixOfB needle (c :: cs) || containsSub needle cs

/-- Case-insensitive prefix test (models the `i` regex flag on letters). -/
def isPrefixCI : List Char → List Char → Bool
  | [], _ => true
  | _ :: _, [] => false
  | p :: ps, t :: ts => (p.toLower == t.toLower) && isPrefixCI ps ts

/-- ASCII whitespace, modelling `\s` for the inputs that occur here. -/
def jsSpace (c : Char) : Bool :=
  c == ' ' || c == '\t' || c == '\n' || c == '\r'

/-- Decimal value of a digit list, as produced by `parseInt(ds, 10)`. -/
def digitsToNat (ds : List Char) : Nat :=
  ds.foldl (fun a c => 10 * a + (c.toNat - 48)) 0

/-! ## `extractConfidenceScore` (debateOrchestrator.ts lines 373-379)

JS: `text.match(/Confidence Score:\s*(0\.\d+|1\.0|1)/i)`, `parseFloat` of the
capture, default `0.5`.  The scanner below searches left to right for the
case-insensitive literal, skips whitespace, then tries the three alternatives
in regex order. -/

def confLit : List Char := "confidence score:".data

/-- The alternation `(0\.\d+|1\.0|1)` with `parseFloat` of the capture. -/
def parseScoreNum : List Char → Option ℚ
  | '0' :: '.' :: rest =>
    let ds := rest.takeWhile Char.isDigit
    if ds.isEmpty then none
    else some ((digitsToNat ds : ℚ) / ((10 : ℚ) ^ ds.length))
  | '1' :: '.' :: '0' :: _ => some 1
  | '1' :: _ => some 1
  | _ => none

/-- Leftmost match of the confidence-score regex, returning the parsed value. -/
def findConfScore : List Char → Option ℚ
  | [] => none
  | c :: cs =>
    if isPrefixCI confLit (c :: cs) then
      match parseScoreNum (((c :: cs).drop confLit.length).dropWhile jsSpace) with
      | some q => some q
      | none => findConfScore cs
    else findConfScore cs

/-- `extractConfidenceScore`: regex match or the default mid-level `0.5`. -/
def extractConfidenceScore (text : String) : ℚ :=
  (findConfScore text.data).getD (1 / 2)

/-! ## `PlanStrategy.parseJudge` (strategies/planStrategy.ts lines 64-90) -/

def winnerLit : List Char := "[[winner:".data

/-- After the literal and `\s*`: `(\d+)` followed by the literal `]]`. -/
def parseWinnerNum (l : List Char) : Option Nat :=
  let ds := l.takeWhile Char.isDigit
  if ds.isEmpty then none
  else
    match l.drop ds.length with
    | ']' :: ']' :: _ => some (digitsToNat ds)
    | _ => none

/-- Leftmost match of `/\[\[WINNER:\s*(\d+)\]\]/i`, as `parseInt` of the capture. -/
def findWinnerMarker : List Char → Option Nat
  | [] => none
  | c :: cs =>
    if isPrefixCI winnerLit (c :: cs) then
      match parseWinnerNum (((c :: cs).drop winnerLit.length).dropWhile jsSpace) with
      | some n => some n
      | none => findWinnerMarker cs
    else findWinnerMarker cs

/-- Result type of `parseJudge`: a winner index or a structured error string. -/
inductive JudgeParse where
  | success (winnerIdx : Int)
  | failure (error : String)
deriving DecidableEq, Repr

def judgeErrorMsg : String := "Could not determine winning plan from judge response"

def finalPlanHeader : String := "# Final Implementation Plan"

/-- Fallthrough of `parseJudge` once the explicit winner marker is absent or
rejected: synthesized-plan header, then the single-candidate case, then error. -/
def parseJudgeRest (raw : String) (candidates : List String) : JudgeParse :=
  if containsSub finalPlanHeader.data raw.data then .success (-1)
  else if candidates.length == 1 then .success 0
  else .failure judgeErrorMsg

/-- `PlanStrategy.parseJudge raw candidates`: explicit `[[WINNER: n]]` marker
(1-based, converted to 0-based and range-checked), else the fallthrough chain. -/
def parseJudge (raw : String) (candidates : List String) : JudgeParse :=
  match findWinnerMarker raw.data with
  | some n =>
    let winnerIdx : Int := (n : Int) - 1
    if 0 ≤ winnerIdx ∧ winnerIdx < (candidates.length : Int) then .success winnerIdx
    else parseJudgeRest raw candidates
  | none => parseJudgeRest raw candidates

/-! ## `withRetry` (debateOrchestrator.ts lines 103-144)

The callback is modelled as a function from the attempt number to an outcome.
Backoff delays and jitter only affect timing, not which value is returned, so
they are not part of the embedding. -/

/-- The retry loop body: `remaining` is the number of attempts still allowed
(so the last attempt is the one with `remaining = 1`), `attempt` the 1-based
attempt counter passed to the callback. -/
def withRetryGo (fn : Nat → Except String String) : Nat → Nat → Except String String
  | 0, _ => .error "Retry failed"
  | remaining + 1, attempt =>
    match fn attempt with
    | .ok v => .ok v
    | .error e =>
      if remaining == 0 then .error e
      else withRetryGo fn remaining (attempt + 1)

/-- `withRetry(fn, { attempts })`: up to `attempts` calls, returning the first
success or propagating the error of the final attempt. -/
def withRetry (fn : Nat → Except String String) (attempts : Nat) : Except String String :=
  if attempts == 0 then .error "Retry failed" else withRetryGo fn attempts 1

/-! ## `checkConsensus` (debateOrchestrator.ts lines 384-416)

`JSON.parse` of the trimmed response is abstracted as an oracle
`jsonParse : String → Option ConsensusJson`; `none` models a parse exception.
`consensusReached` records the truthiness of the parsed field, and
`consensusScore` is `none` when the field is absent (JS `undefined`). -/

structure ConsensusJson where
  consensusReached : Bool
  consensusScore : Option ℚ
deriving DecidableEq, Repr

/-- JS `result.consensusScore || 0`: a missing or zero score is `0`. -/
def jsonScore (j : ConsensusJson) : ℚ :=
  match j.consensusScore with
  | some q => if q == 0 then 0 else q
  | none => 0

/-- Body of `checkConsensus` after the model call succeeded with `text`:
the JSON branch, else the confidence-score regex fallback. -/
def checkConsensusCore (parsed : Option ConsensusJson) (text : String) : Bool × ℚ :=
  match parsed with
  | some result => (result.consensusReached, jsonScore result)
  | none =>
    let score := extractConfidenceScore text
    (decide ((9 : ℚ) / 10 ≤ score), score)

/-- `checkConsensus`: a failed consensus call yields `(false, 0)`; a successful
call is parsed as JSON (on the trimmed text) with the regex fallback. -/
def checkConsensus (jsonParse : String → Option ConsensusJson)
    (callResult : Except String String) : Bool × ℚ :=
  match callResult with
  | .error _ => (false, 0)
  | .ok text => checkConsensusCore (jsonParse text.trim) text

/-! ## `sendToModelWithFallback` (modelManager.ts lines 166-285)

Provider calls are oracle outcomes; the Gemini token limit comes from the
yaml-loaded model table and is therefore an environment parameter. -/

inductive ModelType where
  | openai | gemini | anthropic
deriving DecidableEq, Repr

structure FallbackEnv where
  hasGeminiKey : Bool
  geminiTokenLimit : ℚ
  /-- Outcome of `sendOpenAiPrompt(combined, { model: modelName }, …)`. -/
  openaiCall : Except String String
  /-- Outcome of `sendAnthropicPrompt(combined, { model: modelName }, …)`. -/
  anthropicCall : Except String String
  /-- Outcome of the primary `sendGeminiPrompt(combined, { model: modelName }, …)`. -/
  geminiNamedCall : Except String String
  /-- Outcome of the fallback `sendGeminiPrompt(combined, {}, …)`. -/
  geminiFallbackCall : Except String String

def openaiUnreachableMarker : String := "OpenAI API unreachable"

/-- `sendToModelWithFallback`: dispatch on the model type; on error, fall back
to Gemini exactly when the failing type is `openai`, the Gemini key is present,
the token count fits Gemini, and the message flags the network failure. -/
def sendToModelWithFallback (env : FallbackEnv) (modelType : ModelType)
    (tokenCount : ℚ) : Except String String :=
  let primary :=
    match modelType with
    | .openai => env.openaiCall
    | .anthropic => env.anthropicCall
    | .gemini => env.geminiNamedCall
  match primary with
  | .ok t => .ok t
  | .error e =>
    if modelType == .openai && env.hasGeminiKey
        && decide (tokenCount ≤ env.geminiTokenLimit)
        && containsSub openaiUnreachableMarker.data e.data then
      env.geminiFallbackCall
    else .error e

/-! ## The sage-plan debate orchestrator (debateOrchestrator.ts `debate`)

Provider calls, consensus-check responses and the judge call are oracle
outcomes in `SagePlan.PlanEnv`, keyed by the call site (phase, round, model
id); prompts and token-usage statistics of the source influence no control
flow decision of any claim and are not tracked.  Concurrency within a batch
is sequentialized in task order: `chunkArray` partitions tasks while
preserving order (see `chunkArray_join`), and the controller only consumes
the set of per-task state updates. -/

/-- `chunkArray` (debateOrchestrator.ts lines 421-427): partition into batches. -/
def chunkArray {α : Type} : List α → Nat → List (List α)
  | _, 0 => []
  | [], _ + 1 => []
  | a :: l, n + 1 =>
    ((a :: l).take (n + 1)) :: chunkArray ((a :: l).drop (n + 1)) (n + 1)
termination_by l _ => l.length
decreasing_by
  simp
  omega

/-- Batching preserves task order, so processing tasks sequentially in list
order is a faithful determinization of batch execution. -/
theorem chunkArray_flatten {α : Type} (size : Nat) (h : 0 < size) :
    ∀ l : List α, (chunkArray l size).flatten = l := by
  have key : ∀ (n : Nat) (l : List α), l.length ≤ n →
      (chunkArray l size).flatten = l := by
    intro n
    induction n with
    | zero =>
      intro l hl
      have hnil : l = [] := List.eq_nil_of_length_eq_zero (Nat.le_zero.mp hl)
      subst hnil
      cases size with
      | zero => exact absurd h (by omega)
      | succ k => simp [chunkArray]
    | succ n ih =>
      intro l hl
      cases size with
      | zero => exact absurd h (by omega)
      | succ k =>
        cases l with
        | nil => simp [chunkArray]
        | cons a t =>
          rw [chunkArray]
          rw [List.flatten_cons]
          rw [ih ((a :: t).drop (k + 1)) (by simp at hl ⊢; omega)]
          exact List.take_append_drop (k + 1) (a :: t)
  intro l
  exact key l.length l (le_refl _)

namespace SagePlan

/-- `ModelCapability` (debateOrchestrator.ts lines 80-87). -/
structure ModelCapability where
  name : String
  type : ModelType
  available : Bool
  tokenLimit : ℚ
  costPerInputToken : ℚ
  costPerOutputToken : ℚ
deriving DecidableEq, Repr

def O3_MODEL_NAME : String := "o3-2025-04-16"

def GEMINI_TOKEN_LIMIT : ℚ := 1000000

/-- `getAvailableModels` (lines 149-187): the fixed three-model table, with
availability from the two credential flags. -/
def getAvailableModels (hasOpenAiKey hasGeminiKey : Bool) : List ModelCapability :=
  [ { name := O3_MODEL_NAME, type := .openai, available := hasOpenAiKey,
      tokenLimit := 200000,
      costPerInputToken := 8 / 1000000, costPerOutputToken := 24 / 1000000 },
    { name := "gpt-4.1-2025-04-14", type := .openai, available := hasOpenAiKey,
      tokenLimit := 1047576,
      costPerInputToken := 2 / 1000000, costPerOutputToken := 8 / 1000000 },
    { name := "gemini-2.5-pro-preview-03-25", type := .gemini, available := hasGeminiKey,
      tokenLimit := GEMINI_TOKEN_LIMIT,
      costPerInputToken := 35 / 10000000, costPerOutputToken := 105 / 10000000 } ]

end SagePlan

/-- The anonymous worker ids `A` … `H` (both orchestrators, capped at 8). -/
def modelIdLetters : List String := ["A", "B", "C", "D", "E", "F", "G", "H"]

/-- `createModelMapping`: models are zipped with the letters in registry
order; models beyond the eighth receive no id. -/
def createModelMapping (models : List String) : List (String × String) :=
  List.zip modelIdLetters models

namespace SagePlan

/-- First element of maximal token limit (head of the stable descending sort
`sort((a,b) => b.tokenLimit - a.tokenLimit)` used in judge selection). -/
def maxByTokenLimit : ModelCapability → List ModelCapability → ModelCapability
  | best, [] => best
  | best, m :: ms =>
    maxByTokenLimit (if best.tokenLimit < m.tokenLimit then m else best) ms

/-- Judge selection (lines 549-566): `auto` picks o3 when available, else the
available model with the highest token limit; an explicit name is used as-is
with its type inferred from the name. -/
def selectJudge (avail : List ModelCapability) (judgeModel : String) :
    String × ModelType :=
  if judgeModel == "auto" then
    match avail.find? (fun m => m.name == O3_MODEL_NAME) with
    | some m => (m.name, m.type)
    | none =>
      match avail with
      | [] => ("", .openai)
      | m :: ms =>
        let best := maxByTokenLimit m ms
        (best.name, best.type)
  else
    (judgeModel,
      if containsSub "gemini".data judgeModel.data then ModelType.gemini
      else ModelType.openai)

inductive PlanPhase where
  | generate | critique | synthesize | judge | consensus
deriving DecidableEq, Repr

/-- `DebateLogEntry`, restricted to the fields that feed control flow or the
claims (`prompt`, `tokenUsage` and `timestamp` are telemetry only). -/
structure LogEntry where
  round : Nat
  phase : PlanPhase
  modelId : String
  response : String
deriving DecidableEq, Repr

/-- Call-site oracles for the sage-plan debate. -/
structure PlanEnv where
  hasOpenAiKey : Bool
  hasGeminiKey : Bool
  /-- Round-1 generation outcome per model id. -/
  genOut : String → Except String String
  /-- Synthesis outcome per (round, model id). -/
  synthOut : Nat → String → Except String String
  /-- Critique outcome per (round, model id). -/
  critOut : Nat → String → Except String String
  /-- Consensus-check model response per round. -/
  consensusCall : Nat → Except String String
  /-- `JSON.parse` on the trimmed consensus response (`none` = parse error). -/
  jsonParse : String → Option ConsensusJson
  /-- Judge call outcome. -/
  judgeOut : Except String String
  /-- Self-debate (CoRT) initial generation outcome for draft `i = 0, 1, 2`. -/
  selfGen : Nat → Except String String
  /-- Self-debate refinement outcome per round. -/
  selfSynth : Nat → Except String String

/-- `DebateOptions`, restricted to the fields the orchestrator branches on. -/
structure PlanOptions where
  rounds : Nat
  models : Option (List String)
  judgeModel : String
  maxTotalTokens : Option Nat
deriving Repr

/-- Debate state threaded through the round loop. -/
structure MultiSt where
  plans : List (String × String)
  logs : List LogEntry
  consensusReached : Bool
  consensusRound : Nat
  consensusScore : ℚ
deriving DecidableEq, Repr

/-- `currentPlans[modelId] = text` on a JS object: update in place if the key
exists, else append (insertion order preserved). -/
def setPlan (plans : List (String × String)) (id text : String) :
    List (String × String) :=
  if plans.any (fun p => p.1 == id) then
    plans.map (fun p => if p.1 == id then (id, text) else p)
  else plans ++ [(id, text)]

/-- Round-1 generation phase: each model id generates; a failed task is only
notified and leaves no plan and no log entry. -/
def genPhaseP (env : PlanEnv) : List String → MultiSt → MultiSt
  | [], st => st
  | id :: ids, st =>
    match env.genOut id with
    | .ok t =>
      genPhaseP env ids
        { st with logs := st.logs ++ [⟨1, .generate, id, t⟩],
                  plans := setPlan st.plans id t }
    | .error _ => genPhaseP env ids st

/-- Synthesis phase (rounds ≥ 2) over the keys of `currentPlans` fixed at
phase start: success replaces that model's plan slot. -/
def synthPhaseGo (env : PlanEnv) (round : Nat) : List String → MultiSt → MultiSt
  | [], st => st
  | id :: ids, st =>
    match env.synthOut round id with
    | .ok t =>
      synthPhaseGo env round ids
        { st with logs := st.logs ++ [⟨round, .synthesize, id, t⟩],
                  plans := setPlan st.plans id t }
    | .error _ => synthPhaseGo env round ids st

def synthPhaseP (env : PlanEnv) (round : Nat) (st : MultiSt) : MultiSt :=
  synthPhaseGo env round (st.plans.map (·.1)) st

/-- Critique phase over the keys of `currentPlans`: successes are logged,
failures only notified. -/
def critPhaseGo (env : PlanEnv) (round : Nat) : List String → MultiSt → MultiSt
  | [], st => st
  | id :: ids, st =>
    match env.critOut round id with
    | .ok t =>
      critPhaseGo env round ids
        { st with logs := st.logs ++ [⟨round, .critique, id, t⟩] }
    | .error _ => critPhaseGo env round ids st

def critPhaseP (env : PlanEnv) (round : Nat) (st : MultiSt) : MultiSt :=
  critPhaseGo env round (st.plans.map (·.1)) st

/-- One iteration of the multi-model round loop (lines 655-835); the returned
flag is `true` when the loop `break`s (budget stop or consensus reached).
`recordUsage` is never invoked in this orchestrator, so the budget gate always
compares the rough estimate against the full limit. -/
def runOneRound (env : PlanEnv) (ids : List String) (rounds : Nat)
    (budgetOn : Bool) (limit : Nat) (st : MultiSt) (round : Nat) :
    MultiSt × Bool :=
  if budgetOn && !(decide (0 + 50000 ≤ limit)) then (st, true)
  else
    let st1 := if round == 1 then genPhaseP env ids st else synthPhaseP env round st
    if round > 1 && decide (1 < st1.plans.length) then
      let c := checkConsensus env.jsonParse (env.consensusCall round)
      let st2 := { st1 with consensusReached := c.1, consensusRound := round,
                            consensusScore := c.2 }
      if c.1 then (st2, true)
      else if round == rounds || st2.consensusReached then (st2, false)
      else (critPhaseP env round st2, false)
    else if round == rounds || st1.consensusReached then (st1, false)
    else (critPhaseP env round st1, false)

/-- The round loop `for round = 1..rounds` with early `break`. -/
def runRounds (env : PlanEnv) (ids : List String) (rounds : Nat)
    (budgetOn : Bool) (limit : Nat) : List Nat → MultiSt → MultiSt
  | [], st => st
  | r :: rest, st =>
    let step := runOneRound env ids rounds budgetOn limit st r
    if step.2 then step.1 else runRounds env ids rounds budgetOn limit rest step.1

/-- Judgment phase (lines 837-893).  No plans: the `No valid plans` throw is
caught by the surrounding handler, which reports the error text (plans being
empty).  One plan: used directly.  Several: one judge call whose raw text is
the final plan and whose confidence score overwrites the consensus score; a
judge error falls back to the first plan with `complete` left false. -/
def judgmentPhase (env : PlanEnv) (rounds : Nat) (st : MultiSt) :
    String × MultiSt × Bool :=
  match st.plans with
  | [] => ("Error occurred during debate. No valid plan was produced.", st, false)
  | [p] => (p.2, st, true)
  | p :: _ :: _ =>
    match env.judgeOut with
    | .ok t =>
      (t, { st with logs := st.logs ++ [⟨rounds, .judge, "JUDGE", t⟩],
                    consensusScore := extractConfidenceScore t }, true)
    | .error _ => (p.2, st, false)

/-- Self-debate (CoRT) outcome: the surviving logs, plus the plans when no
call failed (a failure aborts the whole block via the enclosing catch). -/
inductive SelfOut where
  | ok (plans : List String) (logs : List LogEntry)
  | err (logs : List LogEntry)
deriving DecidableEq, Repr

/-- Self-debate initial drafts `i = 0, 1, 2` (lines 593-613). -/
def selfGenLoop (env : PlanEnv) (modelId : String) :
    List Nat → List String → List LogEntry → SelfOut
  | [], plans, logs => .ok plans logs
  | i :: is, plans, logs =>
    match env.selfGen i with
    | .ok t =>
      selfGenLoop env modelId is (plans ++ [t])
        (logs ++ [⟨1, .generate, modelId, t⟩])
    | .error _ => .err logs

/-- Self-debate refinement rounds `2..rounds` with the 10000-token budget
gate (lines 616-642). -/
def selfSynthLoop (env : PlanEnv) (budgetOn : Bool) (limit : Nat)
    (modelId : String) : List Nat → List String → List LogEntry → SelfOut
  | [], plans, logs => .ok plans logs
  | r :: rs, plans, logs =>
    if budgetOn && !(decide (0 + 10000 ≤ limit)) then .ok plans logs
    else
      match env.selfSynth r with
      | .ok t =>
        selfSynthLoop env budgetOn limit modelId rs (plans ++ [t])
          (logs ++ [⟨r, .synthesize, modelId, t⟩])
      | .error _ => .err logs

/-- Single-model Chain-of-Recursive-Thoughts path (lines 580-651): three
initial drafts, then refinement rounds; the final plan is the last draft;
any failure yields the self-debate error text with `complete` false. -/
def selfDebate (env : PlanEnv) (budgetOn : Bool) (limit : Nat)
    (modelId : String) (rounds : Nat) : String × List LogEntry × Bool :=
  match selfGenLoop env modelId [0, 1, 2] [] [] with
  | .err logs => ("Error occurred during self-debate.", logs, false)
  | .ok plans logs =>
    match selfSynthLoop env budgetOn limit modelId
        (List.range' 2 (rounds - 1)) plans logs with
    | .err logs2 => ("Error occurred during self-debate.", logs2, false)
    | .ok plans2 logs2 => (plans2.getLastD "", logs2, true)

/-- `DebateResult`, restricted to the claim-relevant fields (`stats.perModel`
cost assembly is telemetry only). -/
structure PlanResult where
  finalPlan : String
  logs : List LogEntry
  consensusReached : Bool
  consensusRound : Nat
  consensusScore : ℚ
  complete : Bool
deriving DecidableEq, Repr

/-- `debate(opts)` (lines 432-929).  The orchestrator never rejects: the
outermost handler converts any escaped error into a `Debate failed` result. -/
def debate (opts : PlanOptions) (env : PlanEnv) : PlanResult :=
  let avail := (getAvailableModels env.hasOpenAiKey env.hasGeminiKey).filter
    (fun m => m.available)
  if avail.isEmpty then
    { finalPlan := "Debate failed: No models available. Please set either OPENAI_API_KEY or GEMINI_API_KEY environment variables.",
      logs := [], consensusReached := false, consensusRound := 0,
      consensusScore := 0, complete := false }
  else
    let debateModels := opts.models.getD (avail.map (·.name))
    let mapping := createModelMapping debateModels
    let budgetOn : Bool :=
      match opts.maxTotalTokens with
      | some n => n != 0
      | none => false
    let limit := opts.maxTotalTokens.getD 0
    if mapping.length == 1 then
      let modelId := (mapping.headD ("", "")).1
      let s := selfDebate env budgetOn limit modelId opts.rounds
      { finalPlan := s.1, logs := s.2.1, consensusReached := false,
        consensusRound := 0, consensusScore := 0, complete := s.2.2 }
    else
      let ids := mapping.map (·.1)
      let stL := runRounds env ids opts.rounds budgetOn limit
        (List.range' 1 opts.rounds) ⟨[], [], false, 0, 0⟩
      let j := judgmentPhase env opts.rounds stL
      { finalPlan := j.1, logs := j.2.1.logs,
        consensusReached := j.2.1.consensusReached,
        consensusRound := j.2.1.consensusRound,
        consensusScore := j.2.1.consensusScore, complete := j.2.2 }

end SagePlan

/-! ## The strategy-based orchestrator `runDebate`
(debate/debateOrchestrator.ts, unnamed source file, lines 36-817)

The strategy object is a record of pure functions, as in the source's Strategy
pattern; `sendToModelWithFallback` outcomes are an oracle keyed by model name
and prompt.  The state record additionally keeps two event traces that make
the claims statable: `promptLog` records every `strategy.getPrompt`
invocation's phase and `callLog` every model-call dispatch, in program order.
Notifications, transcript entries (debug only) and telemetry do not influence
any modelled value and are omitted. -/

namespace Orch

inductive SPhase where
  | generate | critique | judge
deriving DecidableEq, Repr

/-- The mutable debate context threaded through phases. -/
structure DebateContext where
  userPrompt : String
  candidates : List String
  critiques : List String
  round : Nat
deriving DecidableEq, Repr

/-- A debate strategy: prompt builder, judge parser and config defaults
(`configDefaults.logLevel` only affects debug transcripts and is omitted). -/
structure Strategy where
  getPrompt : SPhase → DebateContext → String
  parseJudge : String → List String → JudgeParse
  defaultRounds : Option Nat

structure DebateConfigOpt where
  enabled : Option Bool
  rounds : Option Nat
  maxTotalTokens : Option Nat
deriving Repr

/-- `DebateOptions`, restricted to the fields the orchestrator branches on. -/
structure Options where
  toolType : String
  userPrompt : String
  debate : Option Bool
  debateConfig : Option DebateConfigOpt
deriving Repr

structure Config where
  enabled : Bool
  rounds : Nat
  maxTotalTokens : Nat
deriving DecidableEq, Repr

/-- Config merge (lines 149-159): caller values take precedence over strategy
defaults, `maxTotalTokens` defaults to `0` (unlimited), `rounds` to 3. -/
def mergeConfig (opts : Options) (strat : Strategy) : Config :=
  { enabled := ((opts.debate).orElse (fun _ => opts.debateConfig.bind (·.enabled))).getD false,
    rounds := ((opts.debateConfig.bind (·.rounds)).orElse (fun _ => strat.defaultRounds)).getD 3,
    maxTotalTokens := (opts.debateConfig.bind (·.maxTotalTokens)).getD 0 }

/-- Process environment and collaborator oracle.  The three model names come
from the yaml-loaded model table, so they are parameters here; `send` is the
outcome of `sendToModelWithFallback` for a given model name and prompt. -/
structure Env where
  hasOpenAiKey : Bool
  hasGeminiKey : Bool
  hasAnthropicKey : Bool
  skipApiCalls : Bool
  gpt5Name : String
  geminiName : String
  opus41Name : String
  send : String → String → Except String String

/-- `getAvailableModels().filter(m => m.available).map(m => m.name)`
(modelManager.ts lines 61-81): GPT-5 with an OpenAI key, Gemini with a Gemini
key, in that order; Claude is judge-only and never a participant. -/
def availableModelNames (env : Env) : List String :=
  (if env.hasOpenAiKey then [env.gpt5Name] else []) ++
    (if env.hasGeminiKey then [env.geminiName] else [])

inductive WarnCode where
  | GEN_FAIL | JUDGE_MALFORMED | VALIDATION_FAIL | TOKEN_BUDGET
deriving DecidableEq, Repr

structure Warning where
  code : WarnCode
  message : String
  phase : String
deriving DecidableEq, Repr

/-- Accumulated orchestrator state: warnings, token accounting, budget usage,
and the two event traces (phases of constructed prompts, dispatched calls). -/
structure St where
  warnings : List Warning
  promptTokens : Nat
  completionTokens : Nat
  budgetUsed : Nat
  promptLog : List SPhase
  callLog : List String
deriving DecidableEq, Repr

def addWarning (code : WarnCode) (message phase : String) (st : St) : St :=
  { st with warnings := st.warnings ++ [⟨code, message, phase⟩] }

/-- `Math.ceil(n / 4)` on a natural length. -/
def ceilDiv4 (n : Nat) : Nat := (n + 3) / 4

/-- `parseModelResponse` token estimation plus `tokenBudget.recordUsage`
(only when a budget is configured). -/
def recordUsage (cfg : Config) (promptLen respLen : Nat) (st : St) : St :=
  let p := ceilDiv4 promptLen
  let c := ceilDiv4 respLen
  { st with promptTokens := st.promptTokens + p,
            completionTokens := st.completionTokens + c,
            budgetUsed :=
              if 0 < cfg.maxTotalTokens then st.budgetUsed + (p + c)
              else st.budgetUsed }

def base36Digit (c : Char) : Option Nat :=
  if c.isDigit then some (c.toNat - 48)
  else
    let l := c.toLower
    if 'a' ≤ l ∧ l ≤ 'z' then some (l.toNat - 87) else none

/-- `parseInt(s, 36)` on the id strings used here (a leading run of base-36
digits; `none` models `NaN`). -/
def parseIntBase36 (s : String) : Option Nat :=
  let ds := s.data.takeWhile (fun c => (base36Digit c).isSome)
  if ds.isEmpty then none
  else some (ds.foldl (fun a c => 36 * a + ((base36Digit c).getD 0)) 0)

/-- `parseInt(modelId, 36) || round`: the context round override used when
building generate/critique prompts. -/
def idNum (id : String) (round : Nat) : Nat :=
  match parseIntBase36 id with
  | some n => if n == 0 then round else n
  | none => round

/-- The `SKIP_API_CALLS` mock response template for worker phases. -/
def mockResponse (modelName phase : String) (promptLen : Nat) : String :=
  "Mock " ++ modelName ++ " response for phase: " ++ phase ++ "\nModel: " ++
    modelName ++ "\nPrompt length: " ++ toString promptLen ++
    "\nThis is test output only."

def genPrompt (strat : Strategy) (ctx : DebateContext) (round : Nat)
    (id : String) : String :=
  strat.getPrompt .generate { ctx with round := idNum id round }

/-- One round-1 generation task (lines 350-434): build the prompt, call the
model (or produce the mock), record usage on success, or emit a `GEN_FAIL`
warning with phase `generate` on failure and contribute no candidate. -/
def genTask (env : Env) (cfg : Config) (strat : Strategy) (ctx : DebateContext)
    (round : Nat) (id modelName : String) (st : St) : Option String × St :=
  let prompt := genPrompt strat ctx round id
  let st1 := { st with promptLog := st.promptLog ++ [SPhase.generate] }
  if env.skipApiCalls then
    let resp := mockResponse modelName "generate" prompt.length
    (some resp, recordUsage cfg prompt.length resp.length st1)
  else
    let st2 := { st1 with callLog := st1.callLog ++ [modelName] }
    match env.send modelName prompt with
    | .ok resp => (some resp, recordUsage cfg prompt.length resp.length st2)
    | .error e =>
      (none,
        addWarning .GEN_FAIL ("Generation failed for model " ++ id ++ ": " ++ e)
          "generate" st2)

/-- All generation tasks in id order (batching preserves order, see
`chunkArray_flatten`); results are kept positionally, `none` for failures. -/
def runGenTasks (env : Env) (cfg : Config) (strat : Strategy)
    (ctx : DebateContext) (round : Nat) :
    List (String × String) → St → List (Option String) × St
  | [], st => ([], st)
  | (id, m) :: rest, st =>
    let r := genTask env cfg strat ctx round id m st
    let k := runGenTasks env cfg strat ctx round rest r.2
    (r.1 :: k.1, k.2)

/-- `candidateModelMapping` entry. -/
structure CandRecord where
  candidateIndex : Nat
  modelId : String
  modelName : String
deriving DecidableEq, Repr

/-- The post-generation scan (lines 447-465): successful results become the
candidate list in id order, each paired with its model in the record list. -/
def buildCandidatesGo : List (Option String × (String × String)) → Nat →
    List String × List CandRecord
  | [], _ => ([], [])
  | (some t, (id, m)) :: rest, idx =>
    let r := buildCandidatesGo rest (idx + 1)
    (t :: r.1, ⟨idx, id, m⟩ :: r.2)
  | (none, _) :: rest, idx => buildCandidatesGo rest idx

def buildCandidates (results : List (Option String))
    (mapping : List (String × String)) : List String × List CandRecord :=
  buildCandidatesGo (results.zip mapping) 0

/-- One critique task (lines 497-589): like generation, but failures emit the
`GEN_FAIL` warning with phase `critique`. -/
def critTask (env : Env) (cfg : Config) (strat : Strategy) (ctx : DebateContext)
    (round : Nat) (id modelName : String) (st : St) : Option String × St :=
  let prompt := strat.getPrompt .critique { ctx with round := idNum id round }
  let st1 := { st with promptLog := st.promptLog ++ [SPhase.critique] }
  if env.skipApiCalls then
    let resp := mockResponse modelName "critique" prompt.length
    (some resp, recordUsage cfg prompt.length resp.length st1)
  else
    let st2 := { st1 with callLog := st1.callLog ++ [modelName] }
    match env.send modelName prompt with
    | .ok resp => (some resp, recordUsage cfg prompt.length resp.length st2)
    | .error e =>
      (none,
        addWarning .GEN_FAIL ("Critique failed for model " ++ id ++ ": " ++ e)
          "critique" st2)

def runCritTasks (env : Env) (cfg : Config) (strat : Strategy)
    (ctx : DebateContext) (round : Nat) :
    List (String × String) → St → List (Option String) × St
  | [], st => ([], st)
  | (id, m) :: rest, st =>
    let r := critTask env cfg strat ctx round id m st
    let k := runCritTasks env cfg strat ctx round rest r.2
    (r.1 :: k.1, k.2)

/-- Loop state: the context, the candidate/model records, and the event state. -/
structure LoopSt where
  ctx : DebateContext
  mapping : List CandRecord
  st : St
deriving DecidableEq, Repr

/-- Critique phase over all model ids (failed generators included, as in the
source); successes wholly replace `critiques`. -/
def critiquePhase (env : Env) (cfg : Config) (strat : Strategy) (round : Nat)
    (modelMapping : List (String × String)) (ls : LoopSt) : LoopSt :=
  let r := runCritTasks env cfg strat ls.ctx round modelMapping ls.st
  { ls with ctx := { ls.ctx with critiques := r.1.filterMap id }, st := r.2 }

/-- The multi-model round loop (lines 322-607): set the context round, consult
the budget gate (emitting `TOKEN_BUDGET` and breaking when it fails), run the
generation phase in round 1 (throwing when every generation failed), and run
the critique phase on every round but the last. -/
def roundLoop (env : Env) (cfg : Config) (strat : Strategy)
    (modelMapping : List (String × String)) :
    List Nat → LoopSt → Except String LoopSt
  | [], ls => .ok ls
  | round :: rest, ls =>
    let ls0 : LoopSt := { ls with ctx := { ls.ctx with round := round } }
    if 0 < cfg.maxTotalTokens &&
        !(decide (ls0.st.budgetUsed + 50000 ≤ cfg.maxTotalTokens)) then
      .ok { ls0 with
        st := addWarning .TOKEN_BUDGET "Token budget exceeded. Ending debate early."
          "generate" ls0.st }
    else if round == 1 then
      let r := runGenTasks env cfg strat ls0.ctx round modelMapping ls0.st
      let bc := buildCandidates r.1 modelMapping
      if bc.1.isEmpty then
        .error "All model generations failed. Cannot continue debate."
      else
        let ls1 : LoopSt :=
          { ctx := { ls0.ctx with candidates := bc.1 }, mapping := bc.2, st := r.2 }
        roundLoop env cfg strat modelMapping rest
          (if round < cfg.rounds then critiquePhase env cfg strat round modelMapping ls1
           else ls1)
    else
      roundLoop env cfg strat modelMapping rest
        (if round < cfg.rounds then critiquePhase env cfg strat round modelMapping ls0
         else ls0)

/-- JS `candidates[i]` for an `Int` index: `undefined` (`none`) when out of
range in either direction. -/
def listGetInt (l : List String) (i : Int) : Option String :=
  if i < 0 then none else l.get? i.toNat

/-- Judge model selection (lines 617-620): Claude Opus 4.1 when the Anthropic
key is present, else the first debate model. -/
def judgeModelNameOf (env : Env) (debateModels : List String) : String :=
  if env.hasAnthropicKey then env.opus41Name else debateModels.headD ""

/-- The `SKIP_API_CALLS` mock judge response template. -/
def mockJudgeResponse (judgeModelName : String) : String :=
  "Mock " ++ judgeModelName ++ " response for phase: judge\n          Winner: Model A" ++
    "\x27s plan\n\n          Confidence Score: 0.8\n\n          Rationale: This is a mock judge response for testing purposes. In a real debate, this would contain the judge" ++
    "\x27s rationale for selecting the winning candidate."

structure JudgeRes where
  finalOutput : Option String
  judgeResult : Option JudgeParse
  st : St
deriving DecidableEq, Repr

/-- Judge phase (lines 609-718): one judge call; on success the strategy
parses the raw text — winner `-1` means the judge's own synthesis is the
final output, a non-negative winner indexes the candidates; a parse failure
or call error emits `JUDGE_MALFORMED` with phase `judge` and falls back to
`candidates[0]`. -/
def judgePhase (env : Env) (cfg : Config) (strat : Strategy)
    (debateModels : List String) (ls : LoopSt) : JudgeRes :=
  let judgeName := judgeModelNameOf env debateModels
  let prompt := strat.getPrompt .judge ls.ctx
  let st1 := { ls.st with promptLog := ls.st.promptLog ++ [SPhase.judge] }
  if env.skipApiCalls then
    let t := mockJudgeResponse judgeName
    let st3 := recordUsage cfg prompt.length t.length st1
    match strat.parseJudge t ls.ctx.candidates with
    | .success idx =>
      if idx == -1 then ⟨some t, some (.success idx), st3⟩
      else ⟨listGetInt ls.ctx.candidates idx, some (.success idx), st3⟩
    | .failure err =>
      ⟨ls.ctx.candidates.head?, some (.failure err),
        addWarning .JUDGE_MALFORMED err "judge" st3⟩
  else
    let st2 := { st1 with callLog := st1.callLog ++ [judgeName] }
    match env.send judgeName prompt with
    | .ok t =>
      let st3 := recordUsage cfg prompt.length t.length st2
      match strat.parseJudge t ls.ctx.candidates with
      | .success idx =>
        if idx == -1 then ⟨some t, some (.success idx), st3⟩
        else ⟨listGetInt ls.ctx.candidates idx, some (.success idx), st3⟩
      | .failure err =>
        ⟨ls.ctx.candidates.head?, some (.failure err),
          addWarning .JUDGE_MALFORMED err "judge" st3⟩
    | .error e =>
      ⟨ls.ctx.candidates.head?, none,
        addWarning .JUDGE_MALFORMED ("Judge phase error: " ++ e) "judge" st2⟩

/-- Single-model shortcut (lines 267-319): one generation call; a failure is
recovered locally into an error-message artifact plus a `GEN_FAIL` warning. -/
def singleModel (env : Env) (cfg : Config) (strat : Strategy)
    (mapping : List (String × String)) (ctx : DebateContext) (st : St) :
    Option String × St :=
  let m := (mapping.headD ("", "")).2
  let prompt := strat.getPrompt .generate ctx
  let st1 := { st with promptLog := st.promptLog ++ [SPhase.generate] }
  let st2 := { st1 with callLog := st1.callLog ++ [m] }
  match env.send m prompt with
  | .ok t => (some t, recordUsage cfg prompt.length t.length st2)
  | .error e =>
    (some ("Error generating output: " ++ e),
      addWarning .GEN_FAIL ("Generation failed: " ++ e) "generate" st2)

/-- `DebateResult` plus the event traces; `finalOutput` is an `Option` because
indexing an empty or too-short candidate list yields JS `undefined`. -/
structure Result where
  finalOutput : Option String
  warnings : List Warning
  promptTokens : Nat
  completionTokens : Nat
  roundsReached : Nat
  winner : Option (String × String)
  promptLog : List SPhase
  callLog : List String
deriving DecidableEq, Repr

/-- Winner attribution (lines 742-765): only a successful non-negative winner
index is looked up in the candidate records. -/
def winnerMeta (jr : Option JudgeParse) (mapping : List CandRecord) :
    Option (String × String) :=
  match jr with
  | some (.success idx) =>
    if 0 ≤ idx then
      match mapping.find? (fun r => ((r.candidateIndex : Int) == idx)) with
      | some rc => some (rc.modelId, rc.modelName)
      | none => none
    else none
  | _ => none

/-- `runDebate` (lines 138-817).  `Except.error` models the thrown errors:
missing strategy, disabled debate, zero available models, and total round-1
generation failure. -/
def runDebate (opts : Options) (stratOpt : Option Strategy) (env : Env) :
    Except String Result :=
  match stratOpt with
  | none => .error ("No strategy available for tool type " ++ opts.toolType)
  | some strat =>
    let cfg := mergeConfig opts strat
    if !cfg.enabled then .error "Debate must be enabled to use runDebate function"
    else
      let debateModels := availableModelNames env
      if debateModels.isEmpty then
        .error "No models available. Please set either OPENAI_API_KEY or GEMINI_API_KEY environment variables."
      else
        let mapping := createModelMapping debateModels
        let ctx0 : DebateContext := ⟨opts.userPrompt, [], [], 1⟩
        let st0 : St := ⟨[], 0, 0, 0, [], []⟩
        if debateModels.length == 1 then
          let r := singleModel env cfg strat mapping ctx0 st0
          .ok { finalOutput := r.1, warnings := r.2.warnings,
                promptTokens := r.2.promptTokens,
                completionTokens := r.2.completionTokens,
                roundsReached := 1, winner := none,
                promptLog := r.2.promptLog, callLog := r.2.callLog }
        else
          match roundLoop env cfg strat mapping (List.range' 1 cfg.rounds)
              ⟨ctx0, [], st0⟩ with
          | .error e => .error e
          | .ok ls =>
            let j := judgePhase env cfg strat debateModels ls
            .ok { finalOutput := j.finalOutput, warnings := j.st.warnings,
                  promptTokens := j.st.promptTokens,
                  completionTokens := j.st.completionTokens,
                  roundsReached := ls.ctx.round,
                  winner := winnerMeta j.judgeResult ls.mapping,
                  promptLog := j.st.promptLog, callLog := j.st.callLog }

end Orch

/-! ## Claim theorems -/

/-- Range behavior of the `parseJudge` fallthrough chain. -/
theorem parseJudgeRest_range (raw : String) (cs : List String) (i : Int)
    (h : parseJudgeRest raw cs = .success i) :
    i = -1 ∨ (0 ≤ i ∧ i < (cs.length : Int)) := by
  unfold parseJudgeRest at h
  split at h
  · left
    simp only [JudgeParse.success.injEq] at h
    omega
  · split at h
    · right
      simp only [JudgeParse.success.injEq] at h
      rename_i hlen
      simp only [beq_iff_eq] at hlen
      omega
    · exact absurd h (by simp)

/-- Claim C10 (confirmed): on success, `parseJudge` never returns a winner
index outside `{-1} ∪ [0, candidates.length)` — an explicit `[[WINNER: n]]`
marker whose 0-based index falls outside the candidate list is rejected by the
range check — and with exactly one candidate a response with no recognizable
winner marker and no synthesis header still succeeds with winner index 0, so
callers indexing with a non-negative returned index stay in bounds. -/
theorem claim_C10 (raw : String) (cs : List String) :
    (∀ i, parseJudge raw cs = .success i →
      i = -1 ∨ (0 ≤ i ∧ i < (cs.length : Int))) ∧
    (cs.length = 1 → findWinnerMarker raw.data = none →
      containsSub finalPlanHeader.data raw.data = false →
      parseJudge raw cs = .success 0) := by
  constructor
  · intro i h
    unfold parseJudge at h
    cases hm : findWinnerMarker raw.data with
    | none =>
      rw [hm] at h
      exact parseJudgeRest_range raw cs i h
    | some n =>
      rw [hm] at h
      simp only at h
      split at h
      · right
        simp only [JudgeParse.success.injEq] at h
        omega
      · exact parseJudgeRest_range raw cs i h
  · intro hlen hm hsub
    unfold parseJudge
    rw [hm]
    unfold parseJudgeRest
    rw [hsub]
    simp [hlen]

/-- Witness for C10: a markerless judge response over a single candidate. -/
theorem claim_C10_witness :
    parseJudge "pick whichever seems best" ["the only plan"] = .success 0 :=
  (claim_C10 "pick whichever seems best" ["the only plan"]).2 (by decide)
    (by decide) (by decide)

/-! ### C8: the task-runner retry helper -/

/-- Reference shape of the amended retry behavior: the first successful
attempt in `1..attempts`, else the final attempt's error. -/
def retrySpec (fn : Nat → Except String String) (attempts : Nat) :
    Except String String :=
  match (List.range' 1 attempts).find? (fun j => (fn j).toOption.isSome) with
  | some j => fn j
  | none => fn attempts

/-- The retry loop returns the first success among attempts `a..a+r-1`, else
the outcome of the final attempt, independently of error classification. -/
theorem withRetryGo_spec (fn : Nat → Except String String) :
    ∀ (r a : Nat), 0 < r →
      withRetryGo fn r a =
        (match (List.range' a r).find? (fun j => (fn j).toOption.isSome) with
         | some j => fn j
         | none => fn (a + r - 1)) := by
  intro r
  induction r with
  | zero => intro a h; omega
  | succ n ih =>
    intro a _
    rw [withRetryGo]
    rw [List.range'_succ]
    cases hfa : fn a with
    | ok v =>
      rw [List.find?_cons_of_pos _ (by simp [hfa, Except.toOption])]
      simp [hfa]
    | error e =>
      rw [List.find?_cons_of_neg _ (by simp [hfa, Except.toOption])]
      cases n with
      | zero =>
        dsimp only
        rw [if_pos (by simp)]
        simp [hfa]
      | succ m =>
        dsimp only
        rw [if_neg (by simp)]
        rw [ih (a + 1) (by omega)]
        have harith : a + 1 + (m + 1) - 1 = a + (m + 1 + 1) - 1 := by omega
        rw [harith]

/-- Claim C8 (amended): `withRetry` retries a failed call regardless of the
failure's classification, up to the attempt ceiling (3 by default at its call
sites): it returns the value of the first successful attempt, and when every
attempt fails it propagates the error of the final attempt.  No error class —
transient or not — short-circuits the remaining attempts. -/
theorem claim_C8 (fn : Nat → Except String String) (attempts : Nat)
    (h : 0 < attempts) : withRetry fn attempts = retrySpec fn attempts := by
  unfold withRetry retrySpec
  rw [if_neg (by intro hc; simp only [beq_iff_eq] at hc; omega)]
  rw [withRetryGo_spec fn attempts 1 h]
  have harith : 1 + attempts - 1 = attempts := by omega
  rw [harith]

/-- A callback whose first attempt fails with a non-transient (malformed
response) error and whose second attempt succeeds. -/
def retryProbeFn : Nat → Except String String := fun attempt =>
  if attempt == 1 then .error "Malformed response from model"
  else .ok "recovered on retry"

/-- Claim C8 counterexample: the claim says a non-transient error propagates
to the caller immediately without consuming further retry attempts, so
`withRetry` over `retryProbeFn` would have to return the malformed-response
error of attempt 1; instead the helper retries and returns attempt 2's
success — `withRetry` never classifies errors. -/
theorem claim_C8_counterexample :
    withRetry retryProbeFn 3 = .ok "recovered on retry" ∧
    retryProbeFn 1 = .error "Malformed response from model" := by
  constructor <;> rfl

/-- Witness for C8 at the default ceiling of three attempts. -/
theorem claim_C8_witness : withRetry retryProbeFn 3 = retrySpec retryProbeFn 3 :=
  claim_C8 retryProbeFn 3 (by decide)

/-! ### C9: single-hop provider failover -/

/-- Claim C9 (amended): the failover in `sendToModelWithFallback` is a single
hop and one-directional, not symmetric.  When an OpenAI-family call fails with
an `OpenAI API unreachable` message, the Gemini credential is present, and the
token count fits the Gemini limit, the result is exactly the one fallback
Gemini attempt (whose own outcome, success or error, is final — never a second
hop); when any of those conditions fails, the OpenAI error propagates; a
failed Gemini or Anthropic call always propagates, with no fallback attempt on
any alternate provider regardless of credentials. -/
theorem claim_C9 (env : FallbackEnv) (tokenCount : ℚ) :
    (∀ e, env.openaiCall = .error e → env.hasGeminiKey = true →
      tokenCount ≤ env.geminiTokenLimit →
      containsSub openaiUnreachableMarker.data e.data = true →
      sendToModelWithFallback env .openai tokenCount = env.geminiFallbackCall) ∧
    (∀ e, env.openaiCall = .error e →
      (env.hasGeminiKey = false ∨ ¬ tokenCount ≤ env.geminiTokenLimit ∨
        containsSub openaiUnreachableMarker.data e.data = false) →
      sendToModelWithFallback env .openai tokenCount = .error e) ∧
    (∀ e, env.geminiNamedCall = .error e →
      sendToModelWithFallback env .gemini tokenCount = .error e) ∧
    (∀ e, env.anthropicCall = .error e →
      sendToModelWithFallback env .anthropic tokenCount = .error e) := by
  refine ⟨?_, ?_, ?_, ?_⟩
  · intro e he hkey hfit hmsg
    unfold sendToModelWithFallback
    simp only [he]
    rw [if_pos (by simp [hkey, hfit, hmsg])]
  · intro e he hcond
    unfold sendToModelWithFallback
    simp only [he]
    rw [if_neg ?hn]
    case hn =>
      intro hc
      simp only [Bool.and_eq_true, beq_iff_eq, decide_eq_true_eq] at hc
      rcases hcond with h1 | h1 | h1
      · rw [h1] at hc; simp at hc
      · exact h1 hc.1.2
      · rw [h1] at hc; simp at hc
  · intro e he
    unfold sendToModelWithFallback
    simp only [he]
    rw [if_neg (by simp)]
  · intro e he
    unfold sendToModelWithFallback
    simp only [he]
    rw [if_neg (by simp)]

/-- Environment for the C9 counterexample: the Gemini-family call fails with a
network error while the alternate provider is reachable and the token count is
tiny. -/
def geminiDownEnv : FallbackEnv :=
  { hasGeminiKey := true
    geminiTokenLimit := 1000000
    openaiCall := .ok "alternate provider reachable"
    anthropicCall := .ok "alternate provider reachable"
    geminiNamedCall := .error "Error calling gemini API (gemini-2.5-pro-preview-03-25): network timeout"
    geminiFallbackCall := .ok "never attempted" }

/-- Claim C9 counterexample: the claim asserts the single-hop fallback
applies symmetrically to a transient network failure on either provider
family; but a failed Gemini call propagates its error unchanged — no fallback
attempt is made on the reachable alternate provider (the code never even
consults the OpenAI credential in its catch handler). -/
theorem claim_C9_counterexample :
    sendToModelWithFallback geminiDownEnv .gemini 100 =
      .error "Error calling gemini API (gemini-2.5-pro-preview-03-25): network timeout" := by
  rfl

/-- Environment for the C9 witness: the OpenAI-family call fails with the
unreachable marker and Gemini is available. -/
def openaiDownEnv : FallbackEnv :=
  { hasGeminiKey := true
    geminiTokenLimit := 1000000
    openaiCall := .error "OpenAI API unreachable: Network connectivity issue. Check your internet connection or try Gemini instead."
    anthropicCall := .ok "unused"
    geminiNamedCall := .ok "unused"
    geminiFallbackCall := .ok "gemini fallback response" }

/-- Witness for C9: the one legitimate fallback direction fires exactly once. -/
theorem claim_C9_witness :
    sendToModelWithFallback openaiDownEnv .openai 100 = .ok "gemini fallback response" :=
  (claim_C9 openaiDownEnv 100).1
    "OpenAI API unreachable: Network connectivity issue. Check your internet connection or try Gemini instead."
    rfl rfl (by norm_num [openaiDownEnv]) (by decide)

/-! ### Generation-phase lemmas for the strategy-based orchestrator -/

namespace Orch

/-- The outcome a generation task contributes, independent of threaded state. -/
def genOutcome (env : Env) (strat : Strategy) (ctx : DebateContext)
    (round : Nat) (id m : String) : Option String :=
  if env.skipApiCalls then
    some (mockResponse m "generate" (genPrompt strat ctx round id).length)
  else (env.send m (genPrompt strat ctx round id)).toOption

/-- The message of a failed call (`""` for a success, never used there). -/
def errMsgOf : Except String String → String
  | .error e => e
  | .ok _ => ""

theorem genTask_fst (env : Env) (cfg : Config) (strat : Strategy)
    (ctx : DebateContext) (round : Nat) (id m : String) (st : St) :
    (genTask env cfg strat ctx round id m st).1 = genOutcome env strat ctx round id m := by
  unfold genTask genOutcome
  split
  · rfl
  · cases h : env.send m (genPrompt strat ctx round id) <;> simp [h, Except.toOption]

theorem runGenTasks_fst (env : Env) (cfg : Config) (strat : Strategy)
    (ctx : DebateContext) (round : Nat) :
    ∀ (mapping : List (String × String)) (st : St),
      (runGenTasks env cfg strat ctx round mapping st).1 =
        mapping.map (fun p => genOutcome env strat ctx round p.1 p.2) := by
  intro mapping
  induction mapping with
  | nil => intro st; rfl
  | cons p rest ih =>
    intro st
    cases p with
    | mk id m =>
      show (genTask env cfg strat ctx round id m st).1 ::
        (runGenTasks env cfg strat ctx round rest _).1 = _
      rw [genTask_fst, ih]
      rfl

theorem genTask_warnings (env : Env) (cfg : Config) (strat : Strategy)
    (ctx : DebateContext) (round : Nat) (id m : String) (st : St)
    (hskip : env.skipApiCalls = false) :
    (genTask env cfg strat ctx round id m st).2.warnings =
      st.warnings ++
        (if (env.send m (genPrompt strat ctx round id)).toOption.isSome then []
         else [⟨.GEN_FAIL,
            "Generation failed for model " ++ id ++ ": " ++
              errMsgOf (env.send m (genPrompt strat ctx round id)), "generate"⟩]) := by
  unfold genTask
  rw [if_neg (by simp [hskip])]
  cases h : env.send m (genPrompt strat ctx round id) with
  | ok v => simp [h, Except.toOption, recordUsage]
  | error e => simp [h, Except.toOption, addWarning, errMsgOf]

theorem genTask_callLog (env : Env) (cfg : Config) (strat : Strategy)
    (ctx : DebateContext) (round : Nat) (id m : String) (st : St)
    (hskip : env.skipApiCalls = false) :
    (genTask env cfg strat ctx round id m st).2.callLog = st.callLog ++ [m] := by
  unfold genTask
  rw [if_neg (by simp [hskip])]
  cases h : env.send m (genPrompt strat ctx round id) with
  | ok v => simp [recordUsage]
  | error e => simp [addWarning]

/-- Per-model failure warning of the generation phase. -/
def genFailWarning (env : Env) (strat : Strategy) (ctx : DebateContext)
    (round : Nat) (p : String × String) : Warning :=
  ⟨.GEN_FAIL,
    "Generation failed for model " ++ p.1 ++ ": " ++
      errMsgOf (env.send p.2 (genPrompt strat ctx round p.1)), "generate"⟩

/-- Whether a model's generation call succeeds (no mock mode). -/
def genOk (env : Env) (strat : Strategy) (ctx : DebateContext) (round : Nat)
    (p : String × String) : Bool :=
  (env.send p.2 (genPrompt strat ctx round p.1)).toOption.isSome

theorem runGenTasks_warnings (env : Env) (cfg : Config) (strat : Strategy)
    (ctx : DebateContext) (round : Nat) (hskip : env.skipApiCalls = false) :
    ∀ (mapping : List (String × String)) (st : St),
      (runGenTasks env cfg strat ctx round mapping st).2.warnings =
        st.warnings ++
          (mapping.filter (fun p => !(genOk env strat ctx round p))).map
            (genFailWarning env strat ctx round) := by
  intro mapping
  induction mapping with
  | nil => intro st; simp [runGenTasks]
  | cons p rest ih =>
    intro st
    cases p with
    | mk id m =>
      show (runGenTasks env cfg strat ctx round rest
        (genTask env cfg strat ctx round id m st).2).2.warnings = _
      rw [ih]
      rw [genTask_warnings env cfg strat ctx round id m st hskip]
      by_cases h : (env.send m (genPrompt strat ctx round id)).toOption.isSome = true
      · simp [List.filter, genOk, h]
      · simp only [Bool.not_eq_true] at h
        simp [List.filter, genOk, h, genFailWarning]

theorem runGenTasks_callLog (env : Env) (cfg : Config) (strat : Strategy)
    (ctx : DebateContext) (round : Nat) (hskip : env.skipApiCalls = false) :
    ∀ (mapping : List (String × String)) (st : St),
      (runGenTasks env cfg strat ctx round mapping st).2.callLog =
        st.callLog ++ mapping.map (·.2) := by
  intro mapping
  induction mapping with
  | nil => intro st; simp [runGenTasks]
  | cons p rest ih =>
    intro st
    cases p with
    | mk id m =>
      show (runGenTasks env cfg strat ctx round rest
        (genTask env cfg strat ctx round id m st).2).2.callLog = _
      rw [ih, genTask_callLog env cfg strat ctx round id m st hskip]
      simp

/-- Structure of the candidate scan: lengths, model attribution, indices. -/
theorem buildCandidatesGo_facts :
    ∀ (l : List (Option String × (String × String))) (idx : Nat),
      (buildCandidatesGo l idx).1.length = l.countP (fun o => o.1.isSome) ∧
      (buildCandidatesGo l idx).2.map (fun c => (c.modelId, c.modelName)) =
        (l.filter (fun o => o.1.isSome)).map (·.2) ∧
      (buildCandidatesGo l idx).2.map (·.candidateIndex) =
        List.range' idx (buildCandidatesGo l idx).1.length := by
  intro l
  induction l with
  | nil => intro idx; simp [buildCandidatesGo, List.countP_nil]
  | cons o rest ih =>
    intro idx
    cases o with
    | mk res pr =>
      cases res with
      | some t =>
        obtain ⟨ih1, ih2, ih3⟩ := ih (idx + 1)
        refine ⟨?_, ?_, ?_⟩
        · simp [buildCandidatesGo, List.countP_cons, ih1]
        · simp [buildCandidatesGo, List.filter, ih2]
        · simp only [buildCandidatesGo, List.map_cons, ih3, List.length_cons]
          rw [List.range'_succ]
      | none =>
        obtain ⟨ih1, ih2, ih3⟩ := ih idx
        refine ⟨?_, ?_, ?_⟩
        · simp [buildCandidatesGo, List.countP_cons, ih1]
        · simp [buildCandidatesGo, List.filter, ih2]
        · simp [buildCandidatesGo, ih3]

/-- Zipping a mapped list with its source pairs each element with its image. -/
theorem zip_map_self {α β : Type} (f : α → β) :
    ∀ l : List α, (l.map f).zip l = l.map (fun a => (f a, a)) := by
  intro l
  induction l with
  | nil => rfl
  | cons a rest ih =>
    show (f a, a) :: (rest.map f).zip rest = _
    rw [ih]
    rfl

end Orch

/-- Filtering the packaged pairs on success and projecting back gives the
filtered source list. -/
theorem map_snd_filter_fst {α : Type} (f : α → Option String) :
    ∀ l : List α,
      ((l.map (fun a => (f a, a))).filter (fun o => o.1.isSome)).map (·.2) =
        l.filter (fun a => (f a).isSome) := by
  intro l
  induction l with
  | nil => rfl
  | cons a rest ih =>
    by_cases h : (f a).isSome
    · simp [List.filter_cons, h, ih]
    · simp [List.filter_cons, h, ih]

/-- Claim C5 (confirmed): in the round-1 generation phase over any model
mapping, when some backends fail and others succeed, each failing backend
contributes exactly one `GEN_FAIL` warning with phase `generate` (in id
order, with the failure message), the candidate list has exactly one entry
per succeeding backend, the candidate-to-model records list exactly the
succeeding backends in order with consecutive indices from 0, and every
backend is still dispatched (failures abort no sibling task). -/
theorem claim_C5 (env : Orch.Env) (cfg : Orch.Config) (strat : Orch.Strategy)
    (ctx : Orch.DebateContext) (round : Nat)
    (mapping : List (String × String)) (st : Orch.St)
    (hskip : env.skipApiCalls = false) :
    (Orch.buildCandidates
        (Orch.runGenTasks env cfg strat ctx round mapping st).1 mapping).1.length =
      mapping.countP (Orch.genOk env strat ctx round) ∧
    (Orch.runGenTasks env cfg strat ctx round mapping st).2.warnings =
      st.warnings ++
        (mapping.filter (fun p => !(Orch.genOk env strat ctx round p))).map
          (Orch.genFailWarning env strat ctx round) ∧
    (Orch.buildCandidates
        (Orch.runGenTasks env cfg strat ctx round mapping st).1 mapping).2.map
      (fun c => (c.modelId, c.modelName)) =
      mapping.filter (Orch.genOk env strat ctx round) ∧
    (Orch.runGenTasks env cfg strat ctx round mapping st).2.callLog =
      st.callLog ++ mapping.map (·.2) ∧
    (Orch.buildCandidates
        (Orch.runGenTasks env cfg strat ctx round mapping st).1 mapping).2.map
      (·.candidateIndex) =
      List.range
        (Orch.buildCandidates
          (Orch.runGenTasks env cfg strat ctx round mapping st).1 mapping).1.length := by
  have hgo : ∀ id m, Orch.genOutcome env strat ctx round id m =
      (env.send m (Orch.genPrompt strat ctx round id)).toOption := by
    intro id m
    unfold Orch.genOutcome
    rw [if_neg (by simp [hskip])]
  obtain ⟨f1, f2, f3⟩ := Orch.buildCandidatesGo_facts
    (mapping.map (fun p => (Orch.genOutcome env strat ctx round p.1 p.2, p))) 0
  refine ⟨?_, Orch.runGenTasks_warnings env cfg strat ctx round hskip mapping st,
    ?_, Orch.runGenTasks_callLog env cfg strat ctx round hskip mapping st, ?_⟩
  · rw [Orch.buildCandidates, Orch.runGenTasks_fst, Orch.zip_map_self]
    rw [f1, List.countP_map]
    congr 1
    funext p
    simp [Function.comp, hgo, Orch.genOk]
  · rw [Orch.buildCandidates, Orch.runGenTasks_fst, Orch.zip_map_self]
    rw [f2, map_snd_filter_fst]
    congr 1
    funext p
    simp [hgo, Orch.genOk]
  · rw [Orch.buildCandidates, Orch.runGenTasks_fst, Orch.zip_map_self]
    rw [f3, List.range_eq_range']

/-- The spec's three-backend scenario: `B` fails generation, `A`, `C` succeed. -/
def w5env : Orch.Env :=
  { hasOpenAiKey := true, hasGeminiKey := true, hasAnthropicKey := false,
    skipApiCalls := false, gpt5Name := "modelA", geminiName := "modelB",
    opus41Name := "opus",
    send := fun m _ => if m == "modelB" then .error "rate limited" else .ok "plan text" }

def w5strat : Orch.Strategy :=
  { getPrompt := fun _ _ => "P", parseJudge := parseJudge, defaultRounds := none }

def w5mapping : List (String × String) :=
  [("A", "modelA"), ("B", "modelB"), ("C", "modelC")]

def w5ctx : Orch.DebateContext := ⟨"task", [], [], 1⟩

def w5cfg : Orch.Config := ⟨true, 2, 0⟩

def w5st : Orch.St := ⟨[], 0, 0, 0, [], []⟩

/-- Witness for C5: with backends `A`, `B`, `C` and `B` failing, there are two
candidates, records map to `A` and `C` with indices 0 and 1, exactly one
`GEN_FAIL` warning with phase `generate` is appended, and all three backends
were dispatched. -/
theorem claim_C5_witness :
    (Orch.buildCandidates
        (Orch.runGenTasks w5env w5cfg w5strat w5ctx 1 w5mapping w5st).1
        w5mapping).1.length = 2 ∧
    (Orch.runGenTasks w5env w5cfg w5strat w5ctx 1 w5mapping w5st).2.warnings =
      [⟨.GEN_FAIL, "Generation failed for model B: rate limited", "generate"⟩] ∧
    (Orch.buildCandidates
        (Orch.runGenTasks w5env w5cfg w5strat w5ctx 1 w5mapping w5st).1
        w5mapping).2.map (fun c => (c.modelId, c.modelName)) =
      [("A", "modelA"), ("C", "modelC")] ∧
    (Orch.runGenTasks w5env w5cfg w5strat w5ctx 1 w5mapping w5st).2.callLog =
      ["modelA", "modelB", "modelC"] ∧
    (Orch.buildCandidates
        (Orch.runGenTasks w5env w5cfg w5strat w5ctx 1 w5mapping w5st).1
        w5mapping).2.map (·.candidateIndex) = [0, 1] := by
  obtain ⟨h1, h2, h3, h4, h5⟩ :=
    claim_C5 w5env w5cfg w5strat w5ctx 1 w5mapping w5st rfl
  exact ⟨h1.trans (by decide), h2.trans (by decide), h3.trans (by decide),
    h4.trans (by decide), h5.trans (by decide)⟩


/-! ### Budget-gate lemmas for the strategy-based orchestrator -/

namespace Orch

/-- Number of `TOKEN_BUDGET` warnings recorded so far. -/
def countTB (st : St) : Nat :=
  st.warnings.countP (fun w => w.code == WarnCode.TOKEN_BUDGET)

theorem countTB_addWarning (c : WarnCode) (m p : String) (st : St)
    (h : (c == WarnCode.TOKEN_BUDGET) = false) :
    countTB (addWarning c m p st) = countTB st := by
  simp [countTB, addWarning, List.countP_append, List.countP_cons, h]

theorem countTB_addWarning_tb (m p : String) (st : St) :
    countTB (addWarning .TOKEN_BUDGET m p st) = countTB st + 1 := by
  simp [countTB, addWarning, List.countP_append, List.countP_cons]

theorem genTask_tb (env : Env) (cfg : Config) (strat : Strategy)
    (ctx : DebateContext) (round : Nat) (id m : String) (st : St) :
    countTB (genTask env cfg strat ctx round id m st).2 = countTB st := by
  unfold genTask
  dsimp only
  split
  · rfl
  · cases h : env.send m (genPrompt strat ctx round id) with
    | ok v => rfl
    | error e => exact countTB_addWarning _ _ _ _ (by decide)

theorem critTask_tb (env : Env) (cfg : Config) (strat : Strategy)
    (ctx : DebateContext) (round : Nat) (id m : String) (st : St) :
    countTB (critTask env cfg strat ctx round id m st).2 = countTB st := by
  unfold critTask
  dsimp only
  split
  · rfl
  · cases h : env.send m
      (strat.getPrompt .critique { ctx with round := idNum id round }) with
    | ok v => rfl
    | error e => exact countTB_addWarning _ _ _ _ (by decide)

theorem runGenTasks_tb (env : Env) (cfg : Config) (strat : Strategy)
    (ctx : DebateContext) (round : Nat) :
    ∀ (mapping : List (String × String)) (st : St),
      countTB (runGenTasks env cfg strat ctx round mapping st).2 = countTB st := by
  intro mapping
  induction mapping with
  | nil => intro st; rfl
  | cons p rest ih =>
    intro st
    cases p with
    | mk id m =>
      show countTB (runGenTasks env cfg strat ctx round rest
        (genTask env cfg strat ctx round id m st).2).2 = countTB st
      rw [ih, genTask_tb]

theorem runCritTasks_tb (env : Env) (cfg : Config) (strat : Strategy)
    (ctx : DebateContext) (round : Nat) :
    ∀ (mapping : List (String × String)) (st : St),
      countTB (runCritTasks env cfg strat ctx round mapping st).2 = countTB st := by
  intro mapping
  induction mapping with
  | nil => intro st; rfl
  | cons p rest ih =>
    intro st
    cases p with
    | mk id m =>
      show countTB (runCritTasks env cfg strat ctx round rest
        (critTask env cfg strat ctx round id m st).2).2 = countTB st
      rw [ih, critTask_tb]

theorem critiquePhase_tb (env : Env) (cfg : Config) (strat : Strategy)
    (round : Nat) (mm : List (String × String)) (ls : LoopSt) :
    countTB (critiquePhase env cfg strat round mm ls).st = countTB ls.st := by
  unfold critiquePhase
  exact runCritTasks_tb env cfg strat ls.ctx round mm ls.st

theorem judgePhase_tb (env : Env) (cfg : Config) (strat : Strategy)
    (models : List String) (ls : LoopSt) :
    countTB (judgePhase env cfg strat models ls).st = countTB ls.st := by
  unfold judgePhase
  dsimp only
  split
  · split
    · split <;> rfl
    · exact countTB_addWarning _ _ _ _ (by decide)
  · cases h : env.send (judgeModelNameOf env models)
      (strat.getPrompt SPhase.judge ls.ctx) with
    | ok t =>
      dsimp only
      split
      · split <;> rfl
      · exact countTB_addWarning _ _ _ _ (by decide)
    | error e => exact countTB_addWarning _ _ _ _ (by decide)

theorem singleModel_tb (env : Env) (cfg : Config) (strat : Strategy)
    (mm : List (String × String)) (ctx : DebateContext) (st : St) :
    countTB (singleModel env cfg strat mm ctx st).2 = countTB st := by
  unfold singleModel
  dsimp only
  cases h : env.send (mm.headD ("", "")).2 (strat.getPrompt .generate ctx) with
  | ok t => rfl
  | error e => exact countTB_addWarning _ _ _ _ (by decide)

theorem roundLoop_tb (env : Env) (cfg : Config) (strat : Strategy)
    (mm : List (String × String)) :
    ∀ (rs : List Nat) (ls ls2 : LoopSt),
      roundLoop env cfg strat mm rs ls = .ok ls2 →
      countTB ls2.st ≤ countTB ls.st + 1 ∧
        (cfg.maxTotalTokens = 0 → countTB ls2.st = countTB ls.st) := by
  intro rs
  induction rs with
  | nil =>
    intro ls ls2 h
    rw [roundLoop] at h
    injection h with h
    subst h
    exact ⟨by omega, fun _ => rfl⟩
  | cons r rest ih =>
    intro ls ls2 h
    have key : ∀ ls' : LoopSt, countTB ls'.st = countTB ls.st →
        roundLoop env cfg strat mm rest ls' = .ok ls2 →
        countTB ls2.st ≤ countTB ls.st + 1 ∧
          (cfg.maxTotalTokens = 0 → countTB ls2.st = countTB ls.st) := by
      intro ls' hls' hrun
      have hrec := ih ls' ls2 hrun
      rw [hls'] at hrec
      exact hrec
    rw [roundLoop] at h
    dsimp only at h
    split at h
    · -- budget gate fired: break with exactly one TOKEN_BUDGET warning
      rename_i hgate
      injection h with h
      subst h
      constructor
      · show countTB (addWarning .TOKEN_BUDGET _ _ _) ≤ countTB ls.st + 1
        rw [countTB_addWarning_tb]
      · intro h0
        rw [h0] at hgate
        simp at hgate
    · split at h
      · -- round 1: generation (may throw), then optional critique
        split at h
        · exact absurd h (by simp)
        · split at h
          · refine key _ ?_ h
            rw [critiquePhase_tb]
            exact runGenTasks_tb env cfg strat _ r mm _
          · refine key _ ?_ h
            exact runGenTasks_tb env cfg strat _ r mm _
      · -- later round: optional critique only
        split at h
        · refine key _ ?_ h
          rw [critiquePhase_tb]
        · refine key _ ?_ h
          rfl

end Orch

/-! ### Path-reduction lemmas for `runDebate` -/

namespace Orch

/-- With debate enabled and at least two backends, `runDebate` is the round
loop followed by the judge phase, packaged into the result record. -/
theorem runDebate_multi (opts : Options) (strat : Strategy) (env : Env) (ls : LoopSt)
    (henabled : (mergeConfig opts strat).enabled = true)
    (hne : (availableModelNames env).isEmpty = false)
    (hlen : ((availableModelNames env).length == 1) = false)
    (hloop : roundLoop env (mergeConfig opts strat) strat
      (createModelMapping (availableModelNames env))
      (List.range' 1 (mergeConfig opts strat).rounds)
      ⟨⟨opts.userPrompt, [], [], 1⟩, [], ⟨[], 0, 0, 0, [], []⟩⟩ = .ok ls) :
    runDebate opts (some strat) env = .ok
      { finalOutput := (judgePhase env (mergeConfig opts strat) strat
          (availableModelNames env) ls).finalOutput,
        warnings := (judgePhase env (mergeConfig opts strat) strat
          (availableModelNames env) ls).st.warnings,
        promptTokens := (judgePhase env (mergeConfig opts strat) strat
          (availableModelNames env) ls).st.promptTokens,
        completionTokens := (judgePhase env (mergeConfig opts strat) strat
          (availableModelNames env) ls).st.completionTokens,
        roundsReached := ls.ctx.round,
        winner := winnerMeta (judgePhase env (mergeConfig opts strat) strat
          (availableModelNames env) ls).judgeResult ls.mapping,
        promptLog := (judgePhase env (mergeConfig opts strat) strat
          (availableModelNames env) ls).st.promptLog,
        callLog := (judgePhase env (mergeConfig opts strat) strat
          (availableModelNames env) ls).st.callLog } := by
  unfold runDebate
  dsimp only
  simp only [henabled, hne, hlen, Bool.not_true, Bool.false_eq_true, if_false]
  rw [hloop]

/-- With debate enabled and exactly one backend, `runDebate` is the single
generation shortcut packaged into the result record. -/
theorem runDebate_single (opts : Options) (strat : Strategy) (env : Env) (m : String)
    (henabled : (mergeConfig opts strat).enabled = true)
    (hone : availableModelNames env = [m]) :
    runDebate opts (some strat) env = .ok
      { finalOutput := (singleModel env (mergeConfig opts strat) strat
          (createModelMapping [m]) ⟨opts.userPrompt, [], [], 1⟩
          ⟨[], 0, 0, 0, [], []⟩).1,
        warnings := (singleModel env (mergeConfig opts strat) strat
          (createModelMapping [m]) ⟨opts.userPrompt, [], [], 1⟩
          ⟨[], 0, 0, 0, [], []⟩).2.warnings,
        promptTokens := (singleModel env (mergeConfig opts strat) strat
          (createModelMapping [m]) ⟨opts.userPrompt, [], [], 1⟩
          ⟨[], 0, 0, 0, [], []⟩).2.promptTokens,
        completionTokens := (singleModel env (mergeConfig opts strat) strat
          (createModelMapping [m]) ⟨opts.userPrompt, [], [], 1⟩
          ⟨[], 0, 0, 0, [], []⟩).2.completionTokens,
        roundsReached := 1,
        winner := none,
        promptLog := (singleModel env (mergeConfig opts strat) strat
          (createModelMapping [m]) ⟨opts.userPrompt, [], [], 1⟩
          ⟨[], 0, 0, 0, [], []⟩).2.promptLog,
        callLog := (singleModel env (mergeConfig opts strat) strat
          (createModelMapping [m]) ⟨opts.userPrompt, [], [], 1⟩
          ⟨[], 0, 0, 0, [], []⟩).2.callLog } := by
  unfold runDebate
  dsimp only
  rw [hone]
  simp only [henabled, Bool.not_true, Bool.false_eq_true, if_false]
  rfl

/-- Event traces of the single-model shortcut: one prompt, one dispatch. -/
theorem singleModel_trace (env : Env) (cfg : Config) (strat : Strategy)
    (mm : List (String × String)) (ctx : DebateContext) (st : St) :
    (singleModel env cfg strat mm ctx st).2.callLog =
      st.callLog ++ [(mm.headD ("", "")).2] ∧
    (singleModel env cfg strat mm ctx st).2.promptLog =
      st.promptLog ++ [SPhase.generate] := by
  unfold singleModel
  dsimp only
  cases h : env.send (mm.headD ("", "")).2 (strat.getPrompt .generate ctx) with
  | ok t => exact ⟨rfl, rfl⟩
  | error e => exact ⟨rfl, rfl⟩

/-- A successful single-model generation is returned verbatim. -/
theorem singleModel_ok (env : Env) (cfg : Config) (strat : Strategy)
    (mm : List (String × String)) (ctx : DebateContext) (st : St) (t : String)
    (h : env.send (mm.headD ("", "")).2 (strat.getPrompt .generate ctx) = .ok t) :
    (singleModel env cfg strat mm ctx st).1 = some t := by
  unfold singleModel
  dsimp only
  rw [h]

/-- Judge phase when the judge selects no candidate (`winnerIdx = -1`): the
final output is the judge's raw text. -/
theorem judgePhase_synthesis (env : Env) (cfg : Config) (strat : Strategy)
    (models : List String) (ls : LoopSt) (t : String)
    (hskip : env.skipApiCalls = false)
    (hjudge : env.send (judgeModelNameOf env models)
      (strat.getPrompt .judge ls.ctx) = .ok t)
    (hparse : strat.parseJudge t ls.ctx.candidates = .success (-1)) :
    (judgePhase env cfg strat models ls).finalOutput = some t := by
  unfold judgePhase
  dsimp only
  rw [if_neg (by simp [hskip])]
  rw [hjudge]
  dsimp only
  rw [hparse]
  dsimp only
  rw [if_pos (by decide)]

/-- Judge phase on a parse failure: fall back to the first candidate, with
exactly one `JUDGE_MALFORMED` warning (phase `judge`) appended. -/
theorem judgePhase_parsefail (env : Env) (cfg : Config) (strat : Strategy)
    (models : List String) (ls : LoopSt) (t err : String)
    (hskip : env.skipApiCalls = false)
    (hjudge : env.send (judgeModelNameOf env models)
      (strat.getPrompt .judge ls.ctx) = .ok t)
    (hparse : strat.parseJudge t ls.ctx.candidates = .failure err) :
    (judgePhase env cfg strat models ls).finalOutput = ls.ctx.candidates.head? ∧
    (judgePhase env cfg strat models ls).st.warnings =
      ls.st.warnings ++ [⟨.JUDGE_MALFORMED, err, "judge"⟩] := by
  unfold judgePhase
  dsimp only
  rw [if_neg (by simp [hskip])]
  rw [hjudge]
  dsimp only
  rw [hparse]
  exact ⟨rfl, rfl⟩

/-- Judge phase on a failed judge call: fall back to the first candidate, with
exactly one `JUDGE_MALFORMED` warning (phase `judge`) appended. -/
theorem judgePhase_callfail (env : Env) (cfg : Config) (strat : Strategy)
    (models : List String) (ls : LoopSt) (e : String)
    (hskip : env.skipApiCalls = false)
    (hjudge : env.send (judgeModelNameOf env models)
      (strat.getPrompt .judge ls.ctx) = .error e) :
    (judgePhase env cfg strat models ls).finalOutput = ls.ctx.candidates.head? ∧
    (judgePhase env cfg strat models ls).st.warnings =
      ls.st.warnings ++ [⟨.JUDGE_MALFORMED, "Judge phase error: " ++ e, "judge"⟩] := by
  unfold judgePhase
  dsimp only
  rw [if_neg (by simp [hskip])]
  rw [hjudge]
  exact ⟨rfl, rfl⟩

/-- The judge phase always constructs exactly one judge prompt. -/
theorem judgePhase_promptLog (env : Env) (cfg : Config) (strat : Strategy)
    (models : List String) (ls : LoopSt) :
    (judgePhase env cfg strat models ls).st.promptLog =
      ls.st.promptLog ++ [SPhase.judge] := by
  unfold judgePhase
  dsimp only
  split
  · split
    · split <;> rfl
    · rfl
  · cases h : env.send (judgeModelNameOf env models)
      (strat.getPrompt SPhase.judge ls.ctx) with
    | ok t =>
      dsimp only
      split
      · split <;> rfl
      · rfl
    | error e => rfl

end Orch

/-! ### C3, C4: judge-result handling -/

/-- Claim C3 (confirmed): in every multi-backend debate whose round loop
completed, if the judge call returns raw text that the strategy parses as
`winnerIndex = -1`, the debate's final output is exactly that raw judge text —
never a candidate obtained by indexing the candidate list. -/
theorem claim_C3 (opts : Orch.Options) (strat : Orch.Strategy) (env : Orch.Env)
    (ls : Orch.LoopSt) (t : String)
    (henabled : (Orch.mergeConfig opts strat).enabled = true)
    (hne : (Orch.availableModelNames env).isEmpty = false)
    (hlen : ((Orch.availableModelNames env).length == 1) = false)
    (hloop : Orch.roundLoop env (Orch.mergeConfig opts strat) strat
      (createModelMapping (Orch.availableModelNames env))
      (List.range' 1 (Orch.mergeConfig opts strat).rounds)
      ⟨⟨opts.userPrompt, [], [], 1⟩, [], ⟨[], 0, 0, 0, [], []⟩⟩ = .ok ls)
    (hskip : env.skipApiCalls = false)
    (hjudge : env.send (Orch.judgeModelNameOf env (Orch.availableModelNames env))
      (strat.getPrompt .judge ls.ctx) = .ok t)
    (hparse : strat.parseJudge t ls.ctx.candidates = .success (-1)) :
    (Orch.runDebate opts (some strat) env).map (fun r => r.finalOutput) =
      .ok (some t) := by
  rw [Orch.runDebate_multi opts strat env ls henabled hne hlen hloop]
  dsimp only [Except.map]
  rw [Orch.judgePhase_synthesis env (Orch.mergeConfig opts strat) strat
    (Orch.availableModelNames env) ls t hskip hjudge hparse]

def w3strat : Orch.Strategy :=
  { getPrompt := fun ph _ =>
      match ph with
      | .generate => "p"
      | .critique => "c"
      | .judge => "jp",
    parseJudge := fun _ _ => .success (-1),
    defaultRounds := some 1 }

def w3env : Orch.Env :=
  { hasOpenAiKey := true, hasGeminiKey := true, hasAnthropicKey := false,
    skipApiCalls := false, gpt5Name := "g5", geminiName := "gm",
    opus41Name := "op",
    send := fun _ prompt =>
      if prompt == "jp" then .ok "judge synthesized text" else .ok "cand" }

def w3opts : Orch.Options :=
  { toolType := "plan", userPrompt := "u", debate := some true,
    debateConfig := none }

def w3ls : Orch.LoopSt :=
  (Orch.roundLoop w3env (Orch.mergeConfig w3opts w3strat) w3strat
    (createModelMapping (Orch.availableModelNames w3env))
    (List.range' 1 (Orch.mergeConfig w3opts w3strat).rounds)
    ⟨⟨"u", [], [], 1⟩, [], ⟨[], 0, 0, 0, [], []⟩⟩).toOption.getD
    ⟨⟨"", [], [], 0⟩, [], ⟨[], 0, 0, 0, [], []⟩⟩

/-- Witness for C3: a two-backend debate whose judge synthesizes its own text. -/
theorem claim_C3_witness :
    (Orch.runDebate w3opts (some w3strat) w3env).map (fun r => r.finalOutput) =
      .ok (some "judge synthesized text") :=
  claim_C3 w3opts w3strat w3env w3ls "judge synthesized text" (by decide)
    (by decide) (by decide) (by rfl) (by decide) (by rfl) (by rfl)

/-- Claim C4 (amended): in every multi-backend debate whose round loop
completed, a judge-phase call error or an unparsable judge output falls back
to `candidates[0]` and appends exactly one `JUDGE_MALFORMED` warning with
phase `judge`; the debate still ends with a textual result provided at least
one candidate exists — in the degenerate run in which the token budget blocked
even round 1, the candidate list is empty and the fallback `candidates[0]` is
JS `undefined`, so the result then carries no text. -/
theorem claim_C4 (opts : Orch.Options) (strat : Orch.Strategy) (env : Orch.Env)
    (ls : Orch.LoopSt)
    (henabled : (Orch.mergeConfig opts strat).enabled = true)
    (hne : (Orch.availableModelNames env).isEmpty = false)
    (hlen : ((Orch.availableModelNames env).length == 1) = false)
    (hloop : Orch.roundLoop env (Orch.mergeConfig opts strat) strat
      (createModelMapping (Orch.availableModelNames env))
      (List.range' 1 (Orch.mergeConfig opts strat).rounds)
      ⟨⟨opts.userPrompt, [], [], 1⟩, [], ⟨[], 0, 0, 0, [], []⟩⟩ = .ok ls)
    (hskip : env.skipApiCalls = false) :
    (∀ e, env.send (Orch.judgeModelNameOf env (Orch.availableModelNames env))
        (strat.getPrompt .judge ls.ctx) = .error e →
      (Orch.runDebate opts (some strat) env).map
          (fun r => (r.finalOutput, r.warnings)) =
        .ok (ls.ctx.candidates.head?,
          ls.st.warnings ++
            [⟨.JUDGE_MALFORMED, "Judge phase error: " ++ e, "judge"⟩])) ∧
    (∀ t err, env.send (Orch.judgeModelNameOf env (Orch.availableModelNames env))
        (strat.getPrompt .judge ls.ctx) = .ok t →
      strat.parseJudge t ls.ctx.candidates = .failure err →
      (Orch.runDebate opts (some strat) env).map
          (fun r => (r.finalOutput, r.warnings)) =
        .ok (ls.ctx.candidates.head?,
          ls.st.warnings ++ [⟨.JUDGE_MALFORMED, err, "judge"⟩])) ∧
    (∀ c cs e, ls.ctx.candidates = c :: cs →
      env.send (Orch.judgeModelNameOf env (Orch.availableModelNames env))
        (strat.getPrompt .judge ls.ctx) = .error e →
      (Orch.runDebate opts (some strat) env).map (fun r => r.finalOutput) =
        .ok (some c)) ∧
    (∀ c cs t err, ls.ctx.candidates = c :: cs →
      env.send (Orch.judgeModelNameOf env (Orch.availableModelNames env))
        (strat.getPrompt .judge ls.ctx) = .ok t →
      strat.parseJudge t ls.ctx.candidates = .failure err →
      (Orch.runDebate opts (some strat) env).map (fun r => r.finalOutput) =
        .ok (some c)) := by
  have hmulti := Orch.runDebate_multi opts strat env ls henabled hne hlen hloop
  refine ⟨?_, ?_, ?_, ?_⟩
  · intro e hj
    obtain ⟨h1, h2⟩ := Orch.judgePhase_callfail env (Orch.mergeConfig opts strat)
      strat (Orch.availableModelNames env) ls e hskip hj
    rw [hmulti]
    dsimp only [Except.map]
    rw [h1, h2]
  · intro t err hj hp
    obtain ⟨h1, h2⟩ := Orch.judgePhase_parsefail env (Orch.mergeConfig opts strat)
      strat (Orch.availableModelNames env) ls t err hskip hj hp
    rw [hmulti]
    dsimp only [Except.map]
    rw [h1, h2]
  · intro c cs e hc hj
    obtain ⟨h1, _⟩ := Orch.judgePhase_callfail env (Orch.mergeConfig opts strat)
      strat (Orch.availableModelNames env) ls e hskip hj
    rw [hmulti]
    dsimp only [Except.map]
    rw [h1, hc]
    rfl
  · intro c cs t err hc hj hp
    obtain ⟨h1, _⟩ := Orch.judgePhase_parsefail env (Orch.mergeConfig opts strat)
      strat (Orch.availableModelNames env) ls t err hskip hj hp
    rw [hmulti]
    dsimp only [Except.map]
    rw [h1, hc]
    rfl

def w4strat : Orch.Strategy :=
  { getPrompt := fun ph _ =>
      match ph with
      | .generate => "p"
      | .critique => "c"
      | .judge => "jp",
    parseJudge := parseJudge,
    defaultRounds := some 1 }

def w4env : Orch.Env :=
  { hasOpenAiKey := true, hasGeminiKey := true, hasAnthropicKey := false,
    skipApiCalls := false, gpt5Name := "g5", geminiName := "gm",
    opus41Name := "op",
    send := fun _ prompt =>
      if prompt == "jp" then .ok "gibberish with no marker" else .ok "cand" }

def w4opts : Orch.Options :=
  { toolType := "plan", userPrompt := "u", debate := some true,
    debateConfig := none }

def w4ls : Orch.LoopSt :=
  (Orch.roundLoop w4env (Orch.mergeConfig w4opts w4strat) w4strat
    (createModelMapping (Orch.availableModelNames w4env))
    (List.range' 1 (Orch.mergeConfig w4opts w4strat).rounds)
    ⟨⟨"u", [], [], 1⟩, [], ⟨[], 0, 0, 0, [], []⟩⟩).toOption.getD
    ⟨⟨"", [], [], 0⟩, [], ⟨[], 0, 0, 0, [], []⟩⟩

/-- Witness for C4: two candidates, unparsable judge output, fallback to the
first candidate with the malformed-judge warning. -/
theorem claim_C4_witness :
    (Orch.runDebate w4opts (some w4strat) w4env).map (fun r => r.finalOutput) =
      .ok (some "cand") :=
  (claim_C4 w4opts w4strat w4env w4ls (by decide) (by decide) (by decide)
      (by rfl) (by decide)).2.2.2 "cand" ["cand"]
    "gibberish with no marker" judgeErrorMsg (by rfl) (by rfl) (by rfl)

def c4strat : Orch.Strategy :=
  { getPrompt := fun ph _ =>
      match ph with
      | .generate => "p"
      | .critique => "c"
      | .judge => "jp",
    parseJudge := parseJudge,
    defaultRounds := some 2 }

def c4env : Orch.Env :=
  { hasOpenAiKey := true, hasGeminiKey := true, hasAnthropicKey := false,
    skipApiCalls := false, gpt5Name := "g5", geminiName := "gm",
    opus41Name := "op",
    send := fun _ _ => .ok "mmm" }

def c4opts : Orch.Options :=
  { toolType := "plan", userPrompt := "u", debate := some true,
    debateConfig :=
      some ({ enabled := none, rounds := some 2, maxTotalTokens := some 1 } :
        Orch.DebateConfigOpt) }

/-- Claim C4 counterexample: with a positive token budget below the round
estimate, the budget gate fires before round 1, the candidate list stays
empty, the judge output fails to parse, the `JUDGE_MALFORMED` warning is
recorded — and the debate ends with `finalOutput` undefined (`none`), not with
a textual result, contradicting the claim that such a debate still ends with
some text. -/
theorem claim_C4_counterexample :
    (Orch.runDebate c4opts (some c4strat) c4env).map
        (fun r => (r.finalOutput, r.warnings.map (fun w => (w.code, w.phase)))) =
      .ok (none, [(.TOKEN_BUDGET, "generate"), (.JUDGE_MALFORMED, "judge")]) := by
  rfl

/-! ### C6: token-budget gating -/

/-- Claim C6 (confirmed): (1) with `maxTotalTokens = 0` no `TOKEN_BUDGET`
warning is ever emitted (budget gating is disabled); (2) every debate result
carries at most one `TOKEN_BUDGET` warning; (3) when the budget is positive
and the recorded usage plus the 50000-token round estimate exceeds the limit,
the round loop appends exactly one `TOKEN_BUDGET` warning and stops before
starting that round — candidates, records and event traces are untouched;
(4) after the loop stops, the debate still proceeds to the judge phase,
constructing exactly one judge prompt over the existing candidates. -/
theorem claim_C6 :
    (∀ (opts : Orch.Options) (strat : Orch.Strategy) (env : Orch.Env)
        (r : Orch.Result),
      (Orch.mergeConfig opts strat).maxTotalTokens = 0 →
      Orch.runDebate opts (some strat) env = .ok r →
      r.warnings.countP (fun w => w.code == Orch.WarnCode.TOKEN_BUDGET) = 0) ∧
    (∀ (opts : Orch.Options) (strat : Orch.Strategy) (env : Orch.Env)
        (r : Orch.Result),
      Orch.runDebate opts (some strat) env = .ok r →
      r.warnings.countP (fun w => w.code == Orch.WarnCode.TOKEN_BUDGET) ≤ 1) ∧
    (∀ (env : Orch.Env) (cfg : Orch.Config) (strat : Orch.Strategy)
        (mm : List (String × String)) (r : Nat) (rest : List Nat)
        (ls : Orch.LoopSt),
      0 < cfg.maxTotalTokens →
      cfg.maxTotalTokens < ls.st.budgetUsed + 50000 →
      Orch.roundLoop env cfg strat mm (r :: rest) ls =
        .ok { ctx := { ls.ctx with round := r }, mapping := ls.mapping,
              st := Orch.addWarning .TOKEN_BUDGET
                "Token budget exceeded. Ending debate early." "generate" ls.st }) ∧
    (∀ (opts : Orch.Options) (strat : Orch.Strategy) (env : Orch.Env)
        (ls : Orch.LoopSt),
      (Orch.mergeConfig opts strat).enabled = true →
      (Orch.availableModelNames env).isEmpty = false →
      ((Orch.availableModelNames env).length == 1) = false →
      Orch.roundLoop env (Orch.mergeConfig opts strat) strat
        (createModelMapping (Orch.availableModelNames env))
        (List.range' 1 (Orch.mergeConfig opts strat).rounds)
        ⟨⟨opts.userPrompt, [], [], 1⟩, [], ⟨[], 0, 0, 0, [], []⟩⟩ = .ok ls →
      (Orch.runDebate opts (some strat) env).map (fun r => r.promptLog) =
        .ok (ls.st.promptLog ++ [Orch.SPhase.judge])) := by
  refine ⟨?_, ?_, ?_, ?_⟩
  · intro opts strat env r h0 h
    unfold Orch.runDebate at h
    dsimp only at h
    split at h
    · exact absurd h (by simp)
    · split at h
      · exact absurd h (by simp)
      · split at h
        · injection h with h
          subst h
          show Orch.countTB (Orch.singleModel _ _ _ _ _ _).2 = 0
          rw [Orch.singleModel_tb]
          rfl
        · split at h
          · exact absurd h (by simp)
          · rename_i ls hloop
            injection h with h
            subst h
            show Orch.countTB (Orch.judgePhase _ _ _ _ _).st = 0
            rw [Orch.judgePhase_tb]
            have := (Orch.roundLoop_tb env (Orch.mergeConfig opts strat) strat
              _ _ _ _ hloop).2 h0
            rw [this]
            rfl
  · intro opts strat env r h
    unfold Orch.runDebate at h
    dsimp only at h
    split at h
    · exact absurd h (by simp)
    · split at h
      · exact absurd h (by simp)
      · split at h
        · injection h with h
          subst h
          show Orch.countTB (Orch.singleModel _ _ _ _ _ _).2 ≤ 1
          rw [Orch.singleModel_tb]
          exact Nat.zero_le 1
        · split at h
          · exact absurd h (by simp)
          · rename_i ls hloop
            injection h with h
            subst h
            show Orch.countTB (Orch.judgePhase _ _ _ _ _).st ≤ 1
            rw [Orch.judgePhase_tb]
            have := (Orch.roundLoop_tb env (Orch.mergeConfig opts strat) strat
              _ _ _ _ hloop).1
            exact le_trans this (by norm_num [Orch.countTB])
  · intro env cfg strat mm r rest ls h1 h2
    rw [Orch.roundLoop]
    dsimp only
    rw [if_pos (by
      simp only [Bool.and_eq_true, decide_eq_true_eq, Bool.not_eq_true',
        decide_eq_false_iff_not]
      exact ⟨h1, by omega⟩)]
  · intro opts strat env ls henabled hne hlen hloop
    rw [Orch.runDebate_multi opts strat env ls henabled hne hlen hloop]
    dsimp only [Except.map]
    rw [Orch.judgePhase_promptLog]

def w6env : Orch.Env :=
  { hasOpenAiKey := true, hasGeminiKey := true, hasAnthropicKey := false,
    skipApiCalls := false, gpt5Name := "g5", geminiName := "gm",
    opus41Name := "op", send := fun _ _ => .ok "text" }

def w6strat : Orch.Strategy :=
  { getPrompt := fun _ _ => "p", parseJudge := parseJudge,
    defaultRounds := some 3 }

def w6cfg : Orch.Config := ⟨true, 3, 50000⟩

def w6ls : Orch.LoopSt :=
  ⟨⟨"u", ["candA", "candB"], [], 1⟩,
    [⟨0, "A", "g5"⟩, ⟨1, "B", "gm"⟩], ⟨[], 30, 40, 70, [], []⟩⟩

/-- Witness for C6: a budget of 50000 with 70 tokens already used blocks the
next round; the loop stops with exactly one `TOKEN_BUDGET` warning and the
existing candidates intact. -/
theorem claim_C6_witness :
    Orch.roundLoop w6env w6cfg w6strat [("A", "g5"), ("B", "gm")] [2, 3] w6ls =
      .ok { ctx := { w6ls.ctx with round := 2 }, mapping := w6ls.mapping,
            st := Orch.addWarning .TOKEN_BUDGET
              "Token budget exceeded. Ending debate early." "generate" w6ls.st } :=
  claim_C6.2.2.1 w6env w6cfg w6strat [("A", "g5"), ("B", "gm")] 2 [3] w6ls
    (by decide) (by decide)

/-! ### C7: the single-backend shortcut -/

/-- Claim C7 (amended): in the strategy-based orchestrator, a debate with
exactly one available backend makes exactly one model call, constructs only
the one generation prompt (no critique or judge prompt is ever built), and on
generation success returns exactly that backend's output as the final text.
The legacy sage-plan orchestrator `debate` does not satisfy the claim: with a
single backend it runs a Chain-of-Recursive-Thoughts self-debate with three
initial generation calls (see the counterexample). -/
theorem claim_C7 (opts : Orch.Options) (strat : Orch.Strategy) (env : Orch.Env)
    (m : String)
    (henabled : (Orch.mergeConfig opts strat).enabled = true)
    (hone : Orch.availableModelNames env = [m]) :
    (Orch.runDebate opts (some strat) env).map
        (fun r => (r.callLog, r.promptLog)) =
      .ok ([m], [Orch.SPhase.generate]) ∧
    (∀ t, env.send m
        (strat.getPrompt .generate ⟨opts.userPrompt, [], [], 1⟩) = .ok t →
      (Orch.runDebate opts (some strat) env).map (fun r => r.finalOutput) =
        .ok (some t)) := by
  have hrun := Orch.runDebate_single opts strat env m henabled hone
  constructor
  · rw [hrun]
    dsimp only [Except.map]
    obtain ⟨h1, h2⟩ := Orch.singleModel_trace env (Orch.mergeConfig opts strat)
      strat (createModelMapping [m]) ⟨opts.userPrompt, [], [], 1⟩
      ⟨[], 0, 0, 0, [], []⟩
    rw [h1, h2]
    rfl
  · intro t ht
    rw [hrun]
    dsimp only [Except.map]
    rw [Orch.singleModel_ok env (Orch.mergeConfig opts strat) strat
      (createModelMapping [m]) ⟨opts.userPrompt, [], [], 1⟩
      ⟨[], 0, 0, 0, [], []⟩ t ht]

def w7strat : Orch.Strategy :=
  { getPrompt := fun _ _ => "solo prompt", parseJudge := parseJudge,
    defaultRounds := some 3 }

def w7env : Orch.Env :=
  { hasOpenAiKey := false, hasGeminiKey := true, hasAnthropicKey := false,
    skipApiCalls := false, gpt5Name := "g5", geminiName := "solo-model",
    opus41Name := "op", send := fun _ _ => .ok "the answer" }

def w7opts : Orch.Options :=
  { toolType := "opinion", userPrompt := "u", debate := some true,
    debateConfig := none }

/-- Witness for C7: one backend, one call, one generation prompt, final text
equal to that backend's output. -/
theorem claim_C7_witness :
    (Orch.runDebate w7opts (some w7strat) w7env).map
        (fun r => (r.callLog, r.promptLog)) =
      .ok (["solo-model"], [Orch.SPhase.generate]) ∧
    (Orch.runDebate w7opts (some w7strat) w7env).map (fun r => r.finalOutput) =
      .ok (some "the answer") :=
  ⟨(claim_C7 w7opts w7strat w7env "solo-model" (by decide) (by decide)).1,
    (claim_C7 w7opts w7strat w7env "solo-model" (by decide) (by decide)).2
      "the answer" (by rfl)⟩

def c7env : SagePlan.PlanEnv :=
  { hasOpenAiKey := false, hasGeminiKey := true,
    genOut := fun _ => .ok "g", synthOut := fun _ _ => .ok "s",
    critOut := fun _ _ => .ok "c", consensusCall := fun _ => .ok "x",
    jsonParse := fun _ => none, judgeOut := .ok "j",
    selfGen := fun i => .ok ("draft " ++ toString i),
    selfSynth := fun r => .ok ("refined " ++ toString r) }

def c7opts : SagePlan.PlanOptions :=
  { rounds := 3, models := none, judgeModel := "auto", maxTotalTokens := none }

/-- Claim C7 counterexample: the sage-plan orchestrator with exactly one
available backend (only the Gemini credential present) makes three generation
calls in round 1 — not exactly one — and its final plan is the last refined
draft, not the single generation output. -/
theorem claim_C7_counterexample :
    (SagePlan.debate c7opts c7env).logs.countP
        (fun l => l.phase == SagePlan.PlanPhase.generate) = 3 ∧
    (SagePlan.debate c7opts c7env).finalPlan = "refined 3" := by
  constructor <;> rfl

/-! ### C1: fatal-error characterization -/

namespace Orch

/-- Rounds after the first never throw: failures there are recovered locally. -/
theorem roundLoop_no1_ok (env : Env) (cfg : Config) (strat : Strategy)
    (mm : List (String × String)) :
    ∀ rs : List Nat, (∀ x ∈ rs, x ≠ 1) → ∀ ls : LoopSt,
      (roundLoop env cfg strat mm rs ls).isOk = true := by
  intro rs
  induction rs with
  | nil => intro _ ls; rfl
  | cons r rest ih =>
    intro hno ls
    rw [roundLoop]
    dsimp only
    split
    · rfl
    · rw [if_neg (by
        simp only [beq_iff_eq]
        exact hno r (List.mem_cons_self r rest))]
      exact ih (fun x hx => hno x (List.mem_cons_of_mem r hx)) _

/-- Round 1 is the only throwing round: the loop over `1 :: rest` (with no
further occurrence of round 1) fails exactly when the budget gate passes and
the generation phase produces no candidate. -/
theorem roundLoop_round1 (env : Env) (cfg : Config) (strat : Strategy)
    (mm : List (String × String)) (rest : List Nat) (ls : LoopSt)
    (hno1 : ∀ x ∈ rest, x ≠ 1) :
    ((roundLoop env cfg strat mm (1 :: rest) ls).isOk = false ↔
      ((0 < cfg.maxTotalTokens → ls.st.budgetUsed + 50000 ≤ cfg.maxTotalTokens) ∧
        (buildCandidates
          (runGenTasks env cfg strat { ls.ctx with round := 1 } 1 mm ls.st).1
          mm).1 = [])) := by
  rw [roundLoop]
  dsimp only
  split
  · rename_i hgate
    simp only [Bool.and_eq_true, decide_eq_true_eq, Bool.not_eq_true',
      decide_eq_false_iff_not] at hgate
    constructor
    · intro hcon
      exact Bool.noConfusion hcon
    · intro hrhs
      exact absurd (hrhs.1 hgate.1) hgate.2
  · rename_i hgate
    rw [if_pos (by decide)]
    have hgatep : 0 < cfg.maxTotalTokens →
        ls.st.budgetUsed + 50000 ≤ cfg.maxTotalTokens := by
      intro h0
      by_contra hle
      exact hgate (by
        simp only [Bool.and_eq_true, decide_eq_true_eq, Bool.not_eq_true',
          decide_eq_false_iff_not]
        exact ⟨h0, hle⟩)
    split
    · rename_i hbc
      constructor
      · intro _
        exact ⟨hgatep, List.isEmpty_iff.mp hbc⟩
      · intro _
        rfl
    · rename_i hbc
      constructor
      · intro hfalse
        rw [roundLoop_no1_ok env cfg strat mm rest hno1] at hfalse
        exact Bool.noConfusion hfalse
      · intro hrhs
        exact absurd (by rw [hrhs.2]; rfl) hbc

/-- The whole round loop fails exactly when there is a first round, its
budget gate passes, and generation yields no candidate. -/
theorem roundLoop_full_iff (env : Env) (cfg : Config) (strat : Strategy)
    (mm : List (String × String)) (ls0 : LoopSt) :
    ((roundLoop env cfg strat mm (List.range' 1 cfg.rounds) ls0).isOk = false ↔
      (1 ≤ cfg.rounds ∧
        (0 < cfg.maxTotalTokens → ls0.st.budgetUsed + 50000 ≤ cfg.maxTotalTokens) ∧
        (buildCandidates
          (runGenTasks env cfg strat { ls0.ctx with round := 1 } 1 mm ls0.st).1
          mm).1 = [])) := by
  rcases Nat.eq_zero_or_pos cfg.rounds with h0 | hpos
  · rw [h0]
    show ((roundLoop env cfg strat mm [] ls0).isOk = false ↔ _)
    rw [roundLoop]
    constructor
    · intro hcon
      exact Bool.noConfusion hcon
    · intro hrhs
      omega
  · obtain ⟨k, hk⟩ : ∃ k, cfg.rounds = k + 1 := ⟨cfg.rounds - 1, by omega⟩
    rw [hk, List.range'_succ]
    rw [roundLoop_round1 env cfg strat mm _ ls0 (by
      intro x hx
      have := List.mem_range'_1.mp hx
      omega)]
    constructor
    · intro ⟨hg, he⟩
      exact ⟨by omega, hg, he⟩
    · intro ⟨_, hg, he⟩
      exact ⟨hg, he⟩

/-- Generation produces no candidate at all exactly when every task's outcome
is `none`. -/
theorem buildCandidatesGo_nil_iff :
    ∀ (l : List (Option String × (String × String))) (idx : Nat),
      ((buildCandidatesGo l idx).1 = [] ↔ ∀ o ∈ l, o.1 = none) := by
  intro l
  induction l with
  | nil => intro idx; simp [buildCandidatesGo]
  | cons o rest ih =>
    intro idx
    cases o with
    | mk res pr =>
      cases res with
      | some t => simp [buildCandidatesGo]
      | none => simp [buildCandidatesGo, ih idx]

theorem buildCandidates_nil_iff (env : Env) (cfg : Config) (strat : Strategy)
    (ctx : DebateContext) (round : Nat) (mm : List (String × String)) (st : St) :
    ((buildCandidates (runGenTasks env cfg strat ctx round mm st).1 mm).1 = [] ↔
      ∀ p ∈ mm, genOutcome env strat ctx round p.1 p.2 = none) := by
  rw [buildCandidates, runGenTasks_fst, zip_map_self, buildCandidatesGo_nil_iff]
  constructor
  · intro h p hp
    have := h _ (List.mem_map_of_mem _ hp)
    simpa using this
  · intro h o ho
    obtain ⟨p, hp, rfl⟩ := List.mem_map.mp ho
    simpa using h p hp

end Orch

/-- Claim C1 (amended): assuming debate is enabled and a strategy exists for
the tool type, `runDebate` fails with a hard error exactly when zero backends
are available, or at least two backends participate, at least one round is
configured, the round-1 budget gate passes, mock mode is off, and every
round-1 generation attempt fails.  In every other case it returns a
`DebateResult`; in particular, with exactly one backend a total generation
failure is recovered locally into an error-text artifact instead of a fatal
error (see the counterexample). -/
theorem claim_C1 (opts : Orch.Options) (strat : Orch.Strategy) (env : Orch.Env)
    (henabled : (Orch.mergeConfig opts strat).enabled = true) :
    ((Orch.runDebate opts (some strat) env).isOk = false ↔
      (Orch.availableModelNames env = [] ∨
        (2 ≤ (Orch.availableModelNames env).length ∧
          1 ≤ (Orch.mergeConfig opts strat).rounds ∧
          (0 < (Orch.mergeConfig opts strat).maxTotalTokens →
            50000 ≤ (Orch.mergeConfig opts strat).maxTotalTokens) ∧
          env.skipApiCalls = false ∧
          ∀ p ∈ createModelMapping (Orch.availableModelNames env),
            (env.send p.2
              (Orch.genPrompt strat ⟨opts.userPrompt, [], [], 1⟩ 1 p.1)).toOption =
              none))) := by
  unfold Orch.runDebate
  dsimp only
  simp only [henabled, Bool.not_true, Bool.false_eq_true, if_false]
  split
  · rename_i hempty
    have hm : Orch.availableModelNames env = [] := List.isEmpty_iff.mp hempty
    constructor
    · intro _
      exact Or.inl hm
    · intro _
      rfl
  · rename_i hempty
    have hmne : Orch.availableModelNames env ≠ [] := by
      intro hc
      rw [hc] at hempty
      exact hempty rfl
    split
    · rename_i hlen1
      constructor
      · intro hfalse
        exact Bool.noConfusion hfalse
      · intro hrhs
        exfalso
        rcases hrhs with h | ⟨h2, _⟩
        · exact hmne h
        · have hl1 : (Orch.availableModelNames env).length = 1 := by
            simpa using hlen1
          omega
    · rename_i hlen1
      have hlen2 : 2 ≤ (Orch.availableModelNames env).length := by
        have hne : (Orch.availableModelNames env).length ≠ 1 := by
          intro hc
          exact hlen1 (by simp [hc])
        have hpos : 0 < (Orch.availableModelNames env).length :=
          List.length_pos.mpr hmne
        omega
      cases hloop : Orch.roundLoop env (Orch.mergeConfig opts strat) strat
          (createModelMapping (Orch.availableModelNames env))
          (List.range' 1 (Orch.mergeConfig opts strat).rounds)
          ⟨⟨opts.userPrompt, [], [], 1⟩, [], ⟨[], 0, 0, 0, [], []⟩⟩ with
      | error e =>
        have hfail : (Orch.roundLoop env (Orch.mergeConfig opts strat) strat
            (createModelMapping (Orch.availableModelNames env))
            (List.range' 1 (Orch.mergeConfig opts strat).rounds)
            ⟨⟨opts.userPrompt, [], [], 1⟩, [], ⟨[], 0, 0, 0, [], []⟩⟩).isOk =
            false := by
          rw [hloop]
          rfl
        obtain ⟨hr1, hgate, hempty2⟩ :=
          (Orch.roundLoop_full_iff env (Orch.mergeConfig opts strat) strat
            (createModelMapping (Orch.availableModelNames env))
            ⟨⟨opts.userPrompt, [], [], 1⟩, [], ⟨[], 0, 0, 0, [], []⟩⟩).mp hfail
        have hall := (Orch.buildCandidates_nil_iff env
          (Orch.mergeConfig opts strat) strat _ 1
          (createModelMapping (Orch.availableModelNames env)) _).mp hempty2
        obtain ⟨m0, ms, hms⟩ :
            ∃ m0 ms, Orch.availableModelNames env = m0 :: ms := by
          cases hmodels : Orch.availableModelNames env with
          | nil => exact absurd hmodels hmne
          | cons a b => exact ⟨a, b, rfl⟩
        have hp0 : ("A", m0) ∈ createModelMapping (Orch.availableModelNames env) := by
          rw [hms]
          exact List.mem_cons_self _ _
        have hskip : env.skipApiCalls = false := by
          by_contra hc
          have hc2 : env.skipApiCalls = true := by
            cases h : env.skipApiCalls
            · exact absurd h hc
            · rfl
          have := hall _ hp0
          unfold Orch.genOutcome at this
          rw [if_pos (by simp [hc2])] at this
          exact absurd this (by simp)
        dsimp only
        constructor
        · intro _
          refine Or.inr ⟨hlen2, hr1, by simpa using hgate, hskip, ?_⟩
          intro p hp
          have := hall p hp
          unfold Orch.genOutcome at this
          rw [if_neg (by simp [hskip])] at this
          exact this
        · intro _
          rfl
      | ok ls =>
        dsimp only
        constructor
        · intro hfalse
          exact Bool.noConfusion hfalse
        · intro hrhs
          exfalso
          rcases hrhs with h | ⟨_, hr1, hgate, hskip, hall⟩
          · exact hmne h
          · have hfail : (Orch.roundLoop env (Orch.mergeConfig opts strat) strat
                (createModelMapping (Orch.availableModelNames env))
                (List.range' 1 (Orch.mergeConfig opts strat).rounds)
                ⟨⟨opts.userPrompt, [], [], 1⟩, [],
                  ⟨[], 0, 0, 0, [], []⟩⟩).isOk = false := by
              rw [(Orch.roundLoop_full_iff env (Orch.mergeConfig opts strat)
                strat (createModelMapping (Orch.availableModelNames env))
                ⟨⟨opts.userPrompt, [], [], 1⟩, [], ⟨[], 0, 0, 0, [], []⟩⟩)]
              refine ⟨hr1, by simpa using hgate, ?_⟩
              rw [Orch.buildCandidates_nil_iff]
              intro p hp
              unfold Orch.genOutcome
              rw [if_neg (by simp [hskip])]
              exact hall p hp
            rw [hloop] at hfail
            exact Bool.noConfusion hfail

def c1strat : Orch.Strategy :=
  { getPrompt := fun _ _ => "p", parseJudge := parseJudge,
    defaultRounds := some 3 }

def c1env : Orch.Env :=
  { hasOpenAiKey := false, hasGeminiKey := true, hasAnthropicKey := false,
    skipApiCalls := false, gpt5Name := "g5", geminiName := "gm",
    opus41Name := "op", send := fun _ _ => .error "backend down" }

def c1opts : Orch.Options :=
  { toolType := "opinion", userPrompt := "u", debate := some true,
    debateConfig := none }

/-- Claim C1 counterexample: one backend is available — not zero — and its
(only) round-1 generation attempt fails, so the claim requires a fatal error;
but `runDebate` returns a `DebateResult` whose artifact is the recovered
error-message text. -/
theorem claim_C1_counterexample :
    (Orch.runDebate c1opts (some c1strat) c1env).map (fun r => r.finalOutput) =
      .ok (some "Error generating output: backend down") := by
  rfl

def w1strat : Orch.Strategy :=
  { getPrompt := fun _ _ => "p", parseJudge := parseJudge,
    defaultRounds := some 3 }

def w1env : Orch.Env :=
  { hasOpenAiKey := true, hasGeminiKey := true, hasAnthropicKey := false,
    skipApiCalls := false, gpt5Name := "g5", geminiName := "gm",
    opus41Name := "op", send := fun _ _ => .error "down" }

def w1opts : Orch.Options :=
  { toolType := "opinion", userPrompt := "u", debate := some true,
    debateConfig := none }

/-- Witness for C1: with two backends and every round-1 generation failing,
`runDebate` does fail fatally. -/
theorem claim_C1_witness :
    (Orch.runDebate w1opts (some w1strat) w1env).isOk = false :=
  (claim_C1 w1opts w1strat w1env (by decide)).mpr
    (Or.inr ⟨by decide, by decide, by decide, by decide, by decide⟩)

/-! ### C2: consensus checking and its short-circuit -/

/-- One round of the sage-plan loop in which the consensus check fires:
synthesis runs, the check returns `reached`, and the round breaks
immediately — no critique for that round. -/
theorem runOneRound_consensus (env : SagePlan.PlanEnv) (ids : List String)
    (rounds : Nat) (budgetOn : Bool) (limit : Nat) (st : SagePlan.MultiSt)
    (r : Nat) (s : ℚ)
    (hb : budgetOn = false ∨ 50000 ≤ limit) (hr : 1 < r)
    (hp : 1 < (SagePlan.synthPhaseP env r st).plans.length)
    (hc : checkConsensus env.jsonParse (env.consensusCall r) = (true, s)) :
    SagePlan.runOneRound env ids rounds budgetOn limit st r =
      ({ SagePlan.synthPhaseP env r st with
         consensusReached := true
         consensusRound := r
         consensusScore := s }, true) := by
  have h1 : (budgetOn && !(decide (0 + 50000 ≤ limit))) = false := by
    rcases hb with hb | hb <;> simp [hb]
  have h2 : (r == 1) = false := by
    simp only [beq_eq_false_iff_ne, ne_eq]
    omega
  have h3 : (decide (r > 1) &&
      decide (1 < (SagePlan.synthPhaseP env r st).plans.length)) = true := by
    simp only [Bool.and_eq_true, decide_eq_true_eq]
    exact ⟨hr, hp⟩
  unfold SagePlan.runOneRound
  simp only [h1, h2, h3, Bool.false_eq_true, if_false, eq_self_iff_true,
    if_true, hc]

/-- Claim C2 (amended): (1) a failed consensus call yields `(false, 0)` and
the debate proceeds; (2) when the JSON parse of the consensus response fails,
the check falls back to the confidence-score regex — the score defaults to
`0.5`, and consensus is "reached" exactly when the extracted score is at
least `0.9` (so a parse failure is not always `(false, 0)`); (3) when the
JSON parse succeeds, "reached" follows the `consensusReached` flag, not the
0.9 threshold; (4) a consensus check that reports "reached" short-circuits
the round loop — the remaining rounds are skipped and the state moves
directly past the loop; (5) the judgment phase then runs, and with several
plans a successful judge call makes its raw text the final plan. -/
theorem claim_C2 :
    (∀ (jp : String → Option ConsensusJson) (e : String),
      checkConsensus jp (.error e) = (false, 0)) ∧
    (∀ text : String,
      (checkConsensusCore none text).2 = extractConfidenceScore text ∧
        ((checkConsensusCore none text).1 = true ↔
          (9 : ℚ) / 10 ≤ extractConfidenceScore text)) ∧
    (∀ (j : ConsensusJson) (text : String),
      checkConsensusCore (some j) text = (j.consensusReached, jsonScore j)) ∧
    (∀ (env : SagePlan.PlanEnv) (ids : List String) (rounds : Nat)
        (budgetOn : Bool) (limit : Nat) (st : SagePlan.MultiSt) (r : Nat)
        (rest : List Nat) (s : ℚ),
      (budgetOn = false ∨ 50000 ≤ limit) → 1 < r →
      1 < (SagePlan.synthPhaseP env r st).plans.length →
      checkConsensus env.jsonParse (env.consensusCall r) = (true, s) →
      SagePlan.runRounds env ids rounds budgetOn limit (r :: rest) st =
        { SagePlan.synthPhaseP env r st with
          consensusReached := true
          consensusRound := r
          consensusScore := s }) ∧
    (∀ (env : SagePlan.PlanEnv) (rounds : Nat) (st : SagePlan.MultiSt)
        (p q : String × String) (ps : List (String × String)) (t : String),
      st.plans = p :: q :: ps → env.judgeOut = .ok t →
      (SagePlan.judgmentPhase env rounds st).1 = t ∧
      (SagePlan.judgmentPhase env rounds st).2.1.logs =
        st.logs ++ [⟨rounds, .judge, "JUDGE", t⟩]) := by
  refine ⟨?_, ?_, ?_, ?_, ?_⟩
  · intro jp e
    rfl
  · intro text
    exact ⟨rfl, by simp [checkConsensusCore]⟩
  · intro j text
    rfl
  · intro env ids rounds budgetOn limit st r rest s hb hr hp hc
    rw [SagePlan.runRounds]
    rw [runOneRound_consensus env ids rounds budgetOn limit st r s hb hr hp hc]
    rfl
  · intro env rounds st p q ps t hpl hj
    unfold SagePlan.judgmentPhase
    rw [hpl]
    dsimp only
    rw [hj]
    exact ⟨rfl, rfl⟩

def c2text : String := "Confidence Score: 0.95"

/-- Claim C2 counterexample: a consensus response that is not JSON (so the
parse fails) but carries `Confidence Score: 0.95` — the claim requires the
check to return no consensus with score 0, yet the code's regex fallback
returns consensus `reached` with score `0.95`.  (The parse oracle returns
`none`, as `JSON.parse` does on this non-JSON text.) -/
theorem claim_C2_counterexample :
    checkConsensus (fun _ => (none : Option ConsensusJson)) (.ok c2text) =
      (true, 19 / 20) := by
  with_unfolding_all rfl

def w2env : SagePlan.PlanEnv :=
  { hasOpenAiKey := true, hasGeminiKey := true,
    genOut := fun id => .ok ("plan " ++ id),
    synthOut := fun r id => .ok ("plan " ++ toString r ++ id),
    critOut := fun r id => .ok ("crit " ++ toString r ++ id),
    consensusCall := fun _ => .ok "Confidence Score: 0.95",
    jsonParse := fun _ => none,
    judgeOut := .ok "final plan",
    selfGen := fun _ => .ok "sp", selfSynth := fun _ => .ok "ss" }

def w2st : SagePlan.MultiSt :=
  ⟨[("A", "pa"), ("B", "pb")], [], false, 0, 0⟩

/-- Witness for C2: with two surviving plans, a round-2 consensus check that
scores 0.95 stops the loop with rounds 3, 4, 5 skipped. -/
theorem claim_C2_witness :
    SagePlan.runRounds w2env ["A", "B"] 5 false 0 [2, 3, 4, 5] w2st =
      { SagePlan.synthPhaseP w2env 2 w2st with
        consensusReached := true
        consensusRound := 2
        consensusScore := 19 / 20 } :=
  claim_C2.2.2.2.1 w2env ["A", "B"] 5 false 0 w2st 2 [3, 4, 5] (19 / 20)
    (Or.inl rfl) (by decide) (by decide) (by with_unfolding_all rfl)
